import Mathlib

/-!
Verification of the Divitize Zendesk bot (`bot_zendesk.py`) against its
natural-language specification.

Shallow embedding conventions:
* Program text is modelled as `List Char` (named `Str`); `str s` converts a
  Lean string literal to that representation.  All text operations
  (lower-casing, stripping, substring search, splitting, regex search) are
  re-implemented as structurally recursive functions so that concrete
  instances evaluate inside the kernel.
* Python regexes are embedded through a small regular-expression search
  engine (`RE`, `reSearch`) covering exactly the features the source
  patterns use: literals, character-class tokens, `*` over a single-char
  class, alternation, option, and the `\b` word boundary.  All patterns in
  the source are compiled with `re.I` or applied to lower-cased text, so
  every embedded search runs on the lower-cased input, with lower-case
  patterns.
* `\w` (for `\b`) is modelled as ASCII alphanumeric or underscore.  Every
  vocabulary word of the source starts and ends with an ASCII word
  character, so the boundary behaviour agrees with Python on the texts the
  claims are about.
* Network reads feeding the functions (ticket fetch, comment list, the
  requester's display name) are supplied as explicit arguments; proposed
  mutations (public reply, tag delta, status change) are returned as an
  explicit effect record.
-/

set_option maxRecDepth 100000

namespace Bot

/-- Program-level text: a list of characters. -/
abbrev Str := List Char

/-- Converts a Lean string literal into the `Str` representation. -/
def str (s : String) : Str := s.data

/-- ASCII apostrophe (written numerically). -/
def apoChar : Char := Char.ofNat 39

/-- Python `\w` on the ASCII texts the bot handles. -/
def isWordChar (c : Char) : Bool := c.isAlphanum || c = '_'

/-- Python `str.lower()` (ASCII model). -/
def lowerStr (s : Str) : Str := s.map Char.toLower

/-- Whitespace predicate used for `str.strip()` and `\s`. -/
def isWS (c : Char) : Bool := c.isWhitespace

/-- Drops the longest suffix whose characters satisfy `p`. -/
def dropEndWhile (p : Char → Bool) (s : Str) : Str := (s.reverse.dropWhile p).reverse

/-- Python `str.strip()`. -/
def pyStrip (s : Str) : Str := dropEndWhile isWS (s.dropWhile isWS)

/-- Python `needle in hay` (contiguous substring test). -/
def isSub (needle : Str) : Str → Bool
  | [] => needle.isEmpty
  | c :: rest => needle.isPrefixOf (c :: rest) || isSub needle rest

/-- Python `s.split(sep)` for a single-character separator. -/
def splitChar (sep : Char) : Str → List Str
  | [] => [[]]
  | c :: rest =>
    match splitChar sep rest with
    | [] => [[]]
    | h :: t => if c = sep then [] :: h :: t else (c :: h) :: t

/-- Python `sep.join(parts)`. -/
def joinSep (sep : Str) : List Str → Str
  | [] => []
  | [x] => x
  | x :: y :: rest => x ++ sep ++ joinSep sep (y :: rest)

/-- One fuel-indexed step of Python `str.replace` (leftmost, non-overlapping,
all occurrences).  The fuel is the length of the scanned text. -/
def replaceFuel (old new : Str) : Nat → Str → Str
  | 0, s => s
  | _ + 1, [] => []
  | fuel + 1, c :: rest =>
    if old.isPrefixOf (c :: rest) && !old.isEmpty then
      new ++ replaceFuel old new fuel ((c :: rest).drop old.length)
    else
      c :: replaceFuel old new fuel rest

/-- Python `s.replace(old, new)`. -/
def replaceSub (old new s : Str) : Str := replaceFuel old new s.length s

/-- Lexicographic (code-point) comparison backing Python `sorted` on tags. -/
def strLe : Str → Str → Bool
  | [], _ => true
  | _ :: _, [] => false
  | a :: as, b :: bs => if a = b then strLe as bs else decide (a < b)

/-- Insertion step of the sort used to model Python `sorted`. -/
def insSorted (x : Str) : List Str → List Str
  | [] => [x]
  | y :: ys => if strLe x y then x :: y :: ys else y :: insSorted x ys

/-- Python `sorted` on a list of tags (insertion sort; code-point order). -/
def sortStrs : List Str → List Str
  | [] => []
  | x :: xs => insSorted x (sortStrs xs)

/-- Deduplication backing Python `set(...)` before `sorted`. -/
def dedupStrs : List Str → List Str
  | [] => []
  | x :: xs => if x ∈ xs then dedupStrs xs else x :: dedupStrs xs

/-! ## Regular-expression search engine -/

/-- The regex fragment used by the source's patterns. -/
inductive RE where
  | eps : RE
  | tok (p : Char → Bool) : RE
  | many (p : Char → Bool) : RE
  | cat (a b : RE) : RE
  | alt (a b : RE) : RE
  | bnd : RE

/-- `r?`. -/
def RE.opt (a : RE) : RE := .alt a .eps

/-- A literal string pattern. -/
def RE.lit : Str → RE
  | [] => .eps
  | c :: rest => .cat (.tok (fun x => x = c)) (RE.lit rest)

/-- Python `\b`: boundary between a word character and a non-word position. -/
def boundaryAt (prev : Option Char) (s : Str) : Bool :=
  let pw := match prev with | none => false | some c => isWordChar c
  let nw := match s with | [] => false | c :: _ => isWordChar c
  pw != nw

/-- All states reachable by `p*`: stop before each further `p`-character. -/
def manyStates (p : Char → Bool) : Option Char → Str → List (Option Char × Str)
  | prev, [] => [(prev, [])]
  | prev, c :: rest =>
    (prev, c :: rest) :: (if p c then manyStates p (some c) rest else [])

/-- All `(last-consumed-char, rest)` states after matching `re` at the front
of the state's text. -/
def reMatch : RE → Option Char × Str → List (Option Char × Str)
  | .eps, st => [st]
  | .tok _, (_, []) => []
  | .tok p, (_, c :: rest) => if p c then [(some c, rest)] else []
  | .many p, (prev, s) => manyStates p prev s
  | .cat a b, st => (reMatch a st).flatMap (reMatch b)
  | .alt a b, st => reMatch a st ++ reMatch b st
  | .bnd, (prev, s) => if boundaryAt prev s then [(prev, s)] else []

/-- Does `re` match starting at some position of the remaining text? -/
def searchAux (re : RE) : Option Char → Str → Bool
  | prev, [] => !(reMatch re (prev, [])).isEmpty
  | prev, c :: rest => !(reMatch re (prev, c :: rest)).isEmpty || searchAux re (some c) rest

/-- Python `pattern.search(s) is not None`. -/
def reSearch (re : RE) (s : Str) : Bool := searchAux re none s

/-- Alternation of a list of patterns. -/
def RE.alts : List RE → RE
  | [] => .tok (fun _ => false)
  | [r] => r
  | r :: s :: rest => .alt r (RE.alts (s :: rest))

/-- Literal-phrase pattern. -/
def phr (s : String) : RE := RE.lit (str s)

/-- Literal-phrase pattern from a `Str`. -/
def phrL (s : Str) : RE := RE.lit s

/-- `\s` token. -/
def wsTok : RE := .tok isWS

/-- `\s*`. -/
def wsMany : RE := .many isWS

/-- `\s+`. -/
def wsPlus : RE := .cat wsTok wsMany

/-- `.` (any character except a newline). -/
def dotTok : RE := .tok (fun c => c ≠ '\n')

/-- `.*`. -/
def dotMany : RE := .many (fun c => c ≠ '\n')

/-- `\d` token. -/
def digitTok : RE := .tok Char.isDigit

/-- `n` repetitions of a pattern. -/
def reps (n : Nat) (r : RE) : RE := (List.replicate n r).foldr .cat .eps

/-- Chains a list of patterns in sequence. -/
def cats (rs : List RE) : RE := rs.foldr .cat .eps

/-! ## Fixed configuration and vocabularies (bot_zendesk.py lines 20-45, 126-174) -/

/-- `SIGNATURE_NAME` (env default `"Noe"`). -/
def SIGNATURE_NAME : Str := str "Noe"

/-- `DRAFT_TAG` (env default `"chat_suggested_draft"`). -/
def DRAFT_TAG : Str := str "chat_suggested_draft"

/-- `TAG_REPLACEMENT_SENT`. -/
def TAG_REPLACEMENT_SENT : Str := str "replacement_sent"

/-- `TRACKING_SENT_PREFIX`. -/
def TRACKING_SENT_PREFIX : Str := str "tracking_sent_"

/-- `AMAZON_SUBJECT_TOKENS` (env default: the single default token). -/
def AMAZON_SUBJECT_TOKENS : List Str := [str "free replacement for my amazon purchase"]

/-- `NO_RETURN_SENTENCE` (the two adjacent source literals concatenated). -/
def NO_RETURN_SENTENCE : Str :=
  str "Please don’t worry about the current insert—you don’t need to return it. " ++
  str "We’ll take care of everything so you can simply enjoy your upgraded organizer."

/-- `SHOPIFY_CONTACT_PHRASE`. -/
def SHOPIFY_CONTACT_PHRASE : Str := str "you received a new message from your online store's contact form"

/-- `COLOR_WORDS` (source set literal, in written order). -/
def COLOR_WORDS : List Str :=
  [str "black", str "white", str "brown", str "dark brown", str "beige", str "sienna",
   str "red", str "blue", str "navy", str "tan", str "camel", str "cream", str "ivory",
   str "pink", str "green", str "grey", str "gray", str "chocolate", str "gold", str "silver"]

/-- `CHAIN_WORDS`. -/
def CHAIN_WORDS : List Str :=
  [str "chain", str "strap", str "shoulder strap", str "tracolla", str "catena", str "belt"]

/-- `SHORT_WORDS`. -/
def SHORT_WORDS : List Str :=
  [str "short", str "too short", str "shorter", str "più corta", str "piu corta"]

/-- `LONG_WORDS`. -/
def LONG_WORDS : List Str :=
  [str "long", str "too long", str "longer", str "più lunga", str "piu lunga"]

/-- `SIZE_WORDS_BASE` (a Python set; embedded in the source's written order —
only membership matters except for the keyword-echo order, see
`summarize_keywords`). -/
def SIZE_WORDS_BASE : List Str :=
  [str "mini", str "small", str "medium", str "large", str "xl", str "vanity",
   str "pm", str "gm", str "bb", str "nano", str "micro"]

/-- `PRE_SALE_MATERIAL_TRIGGERS`. -/
def PRE_SALE_MATERIAL_TRIGGERS : List Str :=
  [str "thinner", str "thin", str "sottile", str "silk", str "nylon", str "felt",
   str "material", str "soft", str "morbido", str "rigido", str "stiff"]

/-- `PRE_SALE_CUSTOM_TRIGGERS` (note the leading space in `" misura"`). -/
def PRE_SALE_CUSTOM_TRIGGERS : List Str :=
  [str "custom", str " misura", str "misure", str "dimension", str "size", str "sizing",
   str "fit", str "fits", str "su misura", str "tailor", str "bespoke"]

/-- `POSITIVE_WORDS`. -/
def POSITIVE_WORDS : List Str :=
  [str "love", str "favourite", str "favorite", str "amazing", str "wonderful",
   str "best of all time", str "i adore", str "grazie mille", str "thank you so much",
   str "your organizers are my favorite"]

/-! ## Embedded regex patterns (searched on lower-cased text; all are `re.I`
or applied to already lower-cased input in the source) -/

/-- `ORDER_PAT`: `\b\d{3}-\d{7}-\d{7}\b` (line 126). -/
def ORDER_PAT : RE :=
  cats [.bnd, reps 3 digitTok, phr "-", reps 7 digitTok, phr "-", reps 7 digitTok, .bnd]

/-- `URL_PAT`: `https?://[^\s)>\]]+` (line 127). -/
def URL_PAT : RE :=
  cats [phr "http", RE.opt (phr "s"), phr "://",
        .tok (fun c => !(isWS c || c = ')' || c = '>' || c = ']')),
        .many (fun c => !(isWS c || c = ')' || c = '>' || c = ']'))]

/-- A `\d{1,2}(\.\d{1,2})?` number of `MEASURES_PAT`. -/
def measureNum : RE :=
  cats [digitTok, RE.opt digitTok,
        RE.opt (cats [.tok (fun c => c = '.'), digitTok, RE.opt digitTok])]

/-- `[x×]` of `MEASURES_PAT` (`re.I`, so `X` matches too). -/
def xSep : RE := .tok (fun c => c = 'x' || c = 'X' || c = '×')

/-- `MEASURES_PAT` (lines 128-131). -/
def MEASURES_PAT : RE :=
  cats [.bnd, measureNum, wsMany, xSep, wsMany, measureNum, wsMany, xSep, wsMany,
        measureNum, .bnd]

/-- `THANKS_RE` (lines 151-156). -/
def THANKS_RE : RE :=
  cats [.bnd,
    RE.alts
      [.cat (phr "thank") (RE.opt (phr " you")),
       phr "thanks",
       phr "appreciate",
       phr "grateful",
       phr "many thanks",
       phr "so happy",
       phr "happy to hear",
       .cat (phr "it fits") (RE.opt (phr " perfectly")),
       phr "fits perfectly",
       phr "works great",
       cats [phr "received ", RE.opt (phr "the "), phr "replacement"]],
    .bnd]

/-- `THANKS_EXCEPTION_RE` (line 159): `\b(would like|want|wanted|just want)\s+to\s+thank\b`. -/
def THANKS_EXCEPTION_RE : RE :=
  cats [.bnd,
        RE.alts [phr "would like", phr "want", phr "wanted", phr "just want"],
        wsPlus, phr "to", wsPlus, phr "thank", .bnd]

/-- `REQUEST_CUES_RE` (lines 162-167). -/
def REQUEST_CUES_RE : RE :=
  cats [.bnd,
    RE.alts
      [phr "need", phr "needs", phr "need to", phr "want", phr "would like",
       phrL (str "i" ++ [apoChar] ++ str "d like"),
       phr "can you", phr "could you",
       .cat (phr "please ") (RE.alts [phr "send", phr "ship", phr "exchange", phr "replace"]),
       phr "replace", phr "exchange", phr "return", phr "refund",
       phr "smaller", phr "larger", phr "different", phr "another",
       phr "send", phr "ship", phr "arrange", phr "help"],
    .bnd]

/-- `NEGATIVE_CUES_RE` (lines 170-174). -/
def NEGATIVE_CUES_RE : RE :=
  cats [.bnd,
    RE.alts
      [phr "too small", phr "too big", phr "pinched",
       cats [phr "does",
             .alt (.cat (phr "n") (RE.opt (.tok (fun c => c = apoChar)))) (phr " no"),
             phr "t fit"],
       cats [phr "did",
             .alt (.cat (phr "n") (RE.opt (.tok (fun c => c = apoChar)))) (phr " not"),
             phr " fit"],
       phr "wrong", phr "incorrect", phr "issue", phr "problem",
       phr "damaged", phr "broken", phr "faulty"],
    .bnd]

/-- `(review|feedback|rating|5\s*stars?)` group of the review patterns. -/
def reviewNoun : RE :=
  RE.alts [phr "review", phr "feedback", phr "rating",
           cats [phr "5", wsMany, phr "star", RE.opt (phr "s")]]

/-- `REVIEW_LEFT_RE` (defined inside `compose_draft`, lines 601-606). -/
def REVIEW_LEFT_RE : RE :=
  RE.alts
    [cats [.bnd, phr "i", wsMany,
           RE.opt (RE.alts [phr "have", phr "had", phr "just", phr "already"]),
           wsMany,
           RE.alts [phr "left", phr "posted", phr "wrote", phr "submitted", phr "gave",
                    phr "made", phr "sent", phr "shared", phr "uploaded"],
           .bnd, dotMany, .bnd, reviewNoun, .bnd],
     cats [.bnd, phr "i", wsMany,
           RE.opt (RE.alts [phr "have", phr "had", phr "just", phr "already"]),
           wsMany,
           RE.alts [phr "reviewed", phr "rated"],
           .bnd],
     cats [.bnd, phr "thank you for letting me leave a review", .bnd]]

/-- `REVIEW_FUTURE_RE` (lines 608-612; `’` is the source's curly apostrophe). -/
def REVIEW_FUTURE_RE : RE :=
  RE.alts
    [cats [.bnd, phr "i", wsMany,
           RE.alts [phr "will", phr "am going to", phr "plan to", phr "want to",
                    phr "would like to", phr "intend to"],
           wsMany,
           RE.alts [phr "leave", phr "write", phr "post", phr "submit", phr "make",
                    phr "give", phr "send", phr "share", phr "upload"],
           .bnd, dotMany, .bnd, reviewNoun, .bnd],
     cats [.bnd, phr "i’ll", wsMany,
           RE.alts [phr "write", phr "post", phr "leave", phr "give"],
           wsMany,
           RE.opt (cats [phr "you", wsPlus, wsPlus]),
           RE.opt (RE.alts [phr "nice", phr "good"]),
           wsMany,
           RE.alts [phr "review", phr "feedback", phr "rating"],
           .bnd]]

/-- `REVIEW_CONDITIONAL_RE` (lines 614-617). -/
def REVIEW_CONDITIONAL_RE : RE :=
  cats [.bnd, phr "if", wsPlus, wsMany,
        RE.alts [phr "leave", phr "write", phr "give", phr "post", phr "submit",
                 phr "make", phr "send", phr "share", phr "upload"],
        .bnd, dotMany, .bnd, reviewNoun, .bnd]

/-- `RETURN_REQUEST_RE` (lines 486-502). -/
def RETURN_REQUEST_RE : RE :=
  cats [.bnd,
    RE.alts
      [.cat (phr "do i need to ")
            (RE.alts [phr "return", phr "send back", phr "ship back", phr "mail back",
                      phr "send this", phr "send it back"]),
       .cat (phr "should i ")
            (RE.alts [phr "return", phr "send back", phr "ship back", phr "mail this",
                      phr "ship this"]),
       phr "must i return",
       .cat (phr "do you need ") (RE.alts [phr "me to return", phr "me to send it back"]),
       .cat (phr "need to ") (RE.alts [phr "return", phr "send back"]),
       .cat (phr "will you ") (RE.alts [phr "send a label", phr "need the old one back"]),
       .cat (phr "do you want ") (RE.alts [phr "me to send", phr "me to return"]),
       phr "want me to return",
       phr "do you want it back",
       cats [phr "send ", RE.alts [phr "it", phr "this"], phr " back to you"],
       phr "send the old one",
       phr "return the old one"],
    .bnd]

/-! ## Text heuristics (bot_zendesk.py lines 176-278) -/

/-- `is_pure_thanks` (lines 176-204). -/
def is_pure_thanks (text : Str) : Bool :=
  let t := lowerStr (pyStrip text)
  if t.isEmpty then false
  else if !reSearch THANKS_RE t then false
  else
    let has_request :=
      if reSearch THANKS_EXCEPTION_RE t then false else reSearch REQUEST_CUES_RE t
    if has_request then false
    else if t.contains '?' then false
    else if reSearch NEGATIVE_CUES_RE t then false
    else true

/-- `has_word` (lines 207-208): `re.search(rf"\b{re.escape(word)}\b", text, re.I)`.
Callers pass lower-cased text and lower-case vocabulary words. -/
def has_word (text w : Str) : Bool := reSearch (cats [.bnd, phrL w, .bnd]) text

/-- `contains_any_word` (lines 210-211). -/
def contains_any_word (text : Str) (vocab : List Str) : Bool :=
  vocab.any (fun w => has_word text w)

/-- `contains_any` (lines 213-216): substring containment on the lower-cased text. -/
def contains_any (text : Str) (vocab : List Str) : Bool :=
  vocab.any (fun w => isSub w (lowerStr text))

/-- `extract_order_number` (lines 218-221), as a Boolean presence test plus the
matched text is not needed by any claim; the search runs on the text with
newlines collapsed to spaces. -/
def order_number_present (text : Str) : Bool :=
  reSearch ORDER_PAT (replaceSub (str "\n") (str " ") text)

/-- `has_link` (lines 223-224); `URL_PAT` is `re.I`, modelled on lower-cased text. -/
def has_link (text : Str) : Bool := reSearch URL_PAT (lowerStr text)

/-- `has_measurements` (lines 226-227). -/
def has_measurements (text : Str) : Bool :=
  reSearch MEASURES_PAT (replaceSub (str "inch") (str "") (replaceSub (str "inches") (str "") text))

/-- `MM_TOKEN_REGEX` (line 143) match at the head of the state:
`(?<![A-Za-z])mm(?![A-Za-z])` on lower-cased text. -/
def mmAt (prev : Option Char) (s : Str) : Bool :=
  (match prev with | none => true | some c => !c.isAlpha) &&
  (str "mm").isPrefixOf s &&
  (match s.drop 2 with | [] => true | c :: _ => !c.isAlpha)

/-- Scan for `MM_TOKEN_REGEX` anywhere. -/
def mmSearch : Option Char → Str → Bool
  | prev, [] => mmAt prev []
  | prev, c :: rest => mmAt prev (c :: rest) || mmSearch (some c) rest

/-- `MM_TOKEN_REGEX.search(t)` (`re.I`; callers pass lower-cased text). -/
def has_mm_token (t : Str) : Bool := mmSearch none t

/-- `text_has_size_word_strict` (lines 257-259). -/
def text_has_size_word_strict (t : Str) : Bool :=
  contains_any_word t SIZE_WORDS_BASE || has_mm_token t

/-- `extract_size_keywords_strict` (lines 261-266). -/
def extract_size_keywords_strict (t : Str) : List Str :=
  (SIZE_WORDS_BASE.filter (fun w => has_word t w)) ++
  (if has_mm_token t then [str "MM"] else [])

/-- The trigger-phrase list of `is_explicit_request` (line 272). -/
def EXPLICIT_TRIGGERS : List Str :=
  [str "i want", str "please send", str "replace", str "i would rather have",
   str "instead", str "can you send", str "please ship", str "i prefer",
   str "i" ++ [apoChar] ++ str "d like", str "i would like"]

/-- `is_explicit_request` (lines 268-275). -/
def is_explicit_request (text : Str) : Bool :=
  if text.isEmpty then false
  else
    let t := lowerStr text
    (EXPLICIT_TRIGGERS.any (fun k => isSub k t)) &&
    (text_has_size_word_strict t || contains_any_word t COLOR_WORDS ||
     contains_any_word t CHAIN_WORDS)

/-- `has_compliment` (lines 277-278). -/
def has_compliment (text : Str) : Bool := contains_any text POSITIVE_WORDS

/-- The chain-case value produced by `detect_chain_case` (a Python dict). -/
inductive ChainCase where
  | length (which : Str)
  | color (c : Str)
  | generic
deriving DecidableEq

/-- `detect_chain_case` (lines 242-255). -/
def detect_chain_case (text : Str) : Option ChainCase :=
  let t := lowerStr text
  if !contains_any_word t CHAIN_WORDS then none
  else if contains_any_word t LONG_WORDS then some (.length (str "longer"))
  else if contains_any_word t SHORT_WORDS then some (.length (str "shorter"))
  else if has_word t (str "gold") || has_word t (str "oro") then some (.color (str "gold"))
  else if has_word t (str "silver") || has_word t (str "argento") then some (.color (str "silver"))
  else some .generic

/-- `summarize_keywords` loop (lines 372-376): dedup by a `seen` set, stop once
three keywords are collected. -/
def pickLoop : List Str → List Str → List Str → List Str
  | [], _, out => out
  | k :: rest, seen, out =>
    let seen2 := if k ∈ seen then seen else seen ++ [k]
    let out2 := if k ∈ seen then out else out ++ [k]
    if out2.length ≥ 3 then out2 else pickLoop rest seen2 out2

/-- The color tuple iterated by `summarize_keywords` (line 364). -/
def SUMMARY_COLORS : List Str :=
  [str "dark brown", str "brown", str "black", str "white", str "gold", str "silver",
   str "beige", str "sienna", str "red", str "blue", str "navy", str "tan", str "camel",
   str "cream", str "ivory", str "pink", str "green", str "grey", str "gray", str "chocolate"]

/-- The `picks` list accumulated by `summarize_keywords` (lines 358-370). -/
def summarize_picks (t : Str) : List Str :=
  extract_size_keywords_strict t ++
  SUMMARY_COLORS.filter (fun w => has_word t w) ++
  (if contains_any_word t CHAIN_WORDS then [str "chain"] else []) ++
  (if contains_any_word t LONG_WORDS then [str "longer"] else []) ++
  (if contains_any_word t SHORT_WORDS then [str "shorter"] else [])

/-- `summarize_keywords` (lines 355-377): returns `", ".join(out)`. -/
def summarize_keywords (text : Str) : Str :=
  joinSep (str ", ") (pickLoop (summarize_picks (lowerStr text)) [] [])

/-! ## Data model

A comment as read from the ticket system, and the ticket snapshot. The
fields that `bot_zendesk.py` obtains through its REST helpers
(`get_ticket_comments`, `get_user_first_name`, `get_custom_field_value`,
`via.source.rel`) are carried as explicit data. -/

/-- One comment of a ticket thread (attachments by content type). -/
structure Comment where
  public : Bool
  author_id : Nat
  body : Str
  attachments : List Str
deriving DecidableEq

/-- A ticket snapshot.  `tracking_field` is
`get_custom_field_value(ticket, Z_TRACKING_FIELD)` (already stripped,
`none` for an absent or falsy value); `requester_first_name` is the result
of the external `get_user_first_name` lookup. -/
structure Ticket where
  id : Nat
  status : Str
  requester_id : Nat
  subject : Str
  tags : List Str
  via_rel : Str
  tracking_field : Option Str
  requester_first_name : Str
deriving DecidableEq

/-- `thread_has_any_photo` (lines 229-234): `content_type.startswith(("image/", "application/pdf"))`. -/
def thread_has_any_photo (comments : List Comment) : Bool :=
  comments.any (fun c => c.attachments.any
    (fun a => (str "image/").isPrefixOf a || (str "application/pdf").isPrefixOf a))

/-- `message_has_photo` (lines 236-240). -/
def message_has_photo (c : Comment) : Bool :=
  c.attachments.any (fun a => (str "image/").isPrefixOf a || (str "application/pdf").isPrefixOf a)

/-- `safe_lower` (lines 281-282). -/
def safe_lower (s : Str) : Str := lowerStr (pyStrip s)

/-- `classify_origin` (lines 287-312); returns `"shopify"`, `"amazon_qr"` or
`"generic_email"`. -/
def classify_origin (ticket : Ticket) (comments : List Comment) : Str :=
  if safe_lower ticket.via_rel = str "shopify" then str "shopify"
  else
    let subject := safe_lower ticket.subject
    let thread_text := lowerStr (joinSep (str " ") (comments.map (·.body)))
    if isSub SHOPIFY_CONTACT_PHRASE thread_text then str "shopify"
    else if AMAZON_SUBJECT_TOKENS.any (fun tok => isSub tok subject) then str "amazon_qr"
    else if reSearch ORDER_PAT (replaceSub (str "\n") (str " ") thread_text) then str "amazon_qr"
    else str "generic_email"

/-! ## Flow-support helpers (lines 523-579) -/

/-- `last_is_end_user_public` (lines 523-526). -/
def last_is_end_user_public (ticket : Ticket) (comments : List Comment) : Bool :=
  match comments.getLast? with
  | none => false
  | some last => last.public && last.author_id == ticket.requester_id

/-- The index-scanning loop of `user_wrote_after_last_internal`: final value of
an accumulator updated to the running index whenever the predicate holds
(Python starts at `-1`). -/
def lastIdxAux (p : Comment → Bool) : Nat → Int → List Comment → Int
  | _, acc, [] => acc
  | i, acc, c :: rest => lastIdxAux p (i + 1) (if p c then (i : Int) else acc) rest

/-- The last index satisfying `p`, or `-1`. -/
def lastIdxWhere (p : Comment → Bool) (comments : List Comment) : Int :=
  lastIdxAux p 0 (-1) comments

/-- `user_wrote_after_last_internal` (lines 528-536). -/
def user_wrote_after_last_internal (comments : List Comment) (requester_id : Nat) : Bool :=
  lastIdxWhere (fun c => c.public && c.author_id == requester_id) comments >
    lastIdxWhere (fun c => !c.public) comments

/-- Python `s.split()[0]`: first maximal run of non-whitespace characters. -/
def firstTok (s : Str) : Str := (s.dropWhile isWS).takeWhile (fun c => !isWS c)

/-- The inner line scan of `extract_first_name_from_shopify_body`: first line
starting with `name:` (case of the source: `line.lower().startswith("name:")`)
whose remainder is non-empty after stripping. -/
def nameFromLines : List Str → Option Str
  | [] => none
  | line :: rest =>
    if (str "name:").isPrefixOf (lowerStr line) then
      let name := pyStrip (line.drop 5)
      if name.isEmpty then nameFromLines rest else some (firstTok name)
    else nameFromLines rest

/-- `extract_first_name_from_shopify_body` (lines 538-550). -/
def extract_first_name_from_shopify_body : List Comment → Option Str
  | [] => none
  | c :: rest =>
    if isSub SHOPIFY_CONTACT_PHRASE (lowerStr c.body) then
      match nameFromLines (splitChar '\n' c.body) with
      | some n => some n
      | none => extract_first_name_from_shopify_body rest
    else extract_first_name_from_shopify_body rest

/-- `current_sent_tracking_tag` (lines 552-559): first tag with the
`tracking_sent_` prefix. -/
def current_sent_tracking_tag (tags : List Str) : Option Str :=
  tags.find? (fun t => TRACKING_SENT_PREFIX.isPrefixOf t)

/-- `normalize_tag` (lines 565-566): lower-case, keep only `[a-z0-9_]`. -/
def normalize_tag (s : Str) : Str :=
  (lowerStr s).filter (fun c => ('a' ≤ c && c ≤ 'z') || c.isDigit || c = '_')

/-- `last_public_comment_contains_tracking` (lines 568-579): only the most
recent public comment is inspected; the second (`nums=`) test keeps the
source's dead comparison. -/
def last_public_comment_contains_tracking (comments : List Comment) (tracking : Str) : Bool :=
  match comments.reverse.find? (fun c => c.public) with
  | none => false
  | some c =>
    let key := normalize_tag tracking
    let nb := normalize_tag c.body
    isSub key nb || isSub (str "nums=" ++ key) nb

/-! ## Message builders (bot_zendesk.py lines 332-520, 621-637, 704-710) -/

/-- `greeting` (lines 332-334). -/
def greeting (first_name : Str) : Str :=
  let name := if first_name.isEmpty then str "there" else first_name
  str "Hi " ++ name ++ str ","

/-- The closing line shared by the replacement builders. -/
def TRACK_SHARE_LINE : Str := str "We’ll share the tracking as soon as it’s available."

/-- `build_chain_reply` (lines 336-353). -/
def build_chain_reply (case : ChainCase) (first_name : Str) : Str :=
  let g := greeting first_name
  match case with
  | .length w =>
    let which := if w == str "longer" then str "longer" else str "shorter"
    g ++ str "\n\nThanks for letting us know — we’ll send a " ++ which ++
    str " chain right away so you can get the perfect length. " ++ NO_RETURN_SENTENCE ++
    str "\n" ++ TRACK_SHARE_LINE ++ str "\n\nBest regards,\n" ++ SIGNATURE_NAME
  | .color c =>
    let color := if c == str "gold" then str "gold" else str "silver"
    g ++ str "\n\nThanks for flagging the color — we’ll send a " ++ color ++
    str " chain as a replacement right away. " ++ NO_RETURN_SENTENCE ++
    str "\n" ++ TRACK_SHARE_LINE ++ str "\n\nBest regards,\n" ++ SIGNATURE_NAME
  | .generic =>
    g ++ str "\n\nThanks for the details about the chain — we’ll arrange a replacement accordingly. " ++
    NO_RETURN_SENTENCE ++ str "\n" ++ TRACK_SHARE_LINE ++ str "\n\nBest regards,\n" ++ SIGNATURE_NAME

/-- `build_accept_replacement` (lines 379-385). -/
def build_accept_replacement (first_name echo : Str) : Str :=
  let g := greeting first_name
  let tail := if echo.isEmpty then [] else str " (" ++ echo ++ str ")"
  g ++ str "\n\nThanks for the details — we’ll arrange a replacement right away" ++ tail ++
  str ". " ++ NO_RETURN_SENTENCE ++ str "\n" ++ TRACK_SHARE_LINE ++
  str "\n\nBest regards,\n" ++ SIGNATURE_NAME

/-- `build_need_info_amazon` (lines 387-399). -/
def build_need_info_amazon (first_name : Str) (need_model_link order_present photo_present : Bool) : Str :=
  let g := greeting first_name
  let asks :=
    (if !order_present then [str "your Amazon order number"] else []) ++
    (if need_model_link then
       [str "the exact model name of your bag or a direct link to the one you own"] else [])
  let ask_line := joinSep (str " and ") asks
  let thanks_photo := if photo_present then str "Thanks for the photo — that’s very helpful. " else []
  g ++ str "\n\nThanks for your message! To make sure the fit is perfect, could you please share " ++
  ask_line ++ str "? " ++ thanks_photo ++ NO_RETURN_SENTENCE ++
  str "\n\nBest regards,\n" ++ SIGNATURE_NAME

/-- `build_need_info_shopify` (lines 401-413). -/
def build_need_info_shopify (first_name : Str) (need_model_link order_present photo_present : Bool) : Str :=
  let g := greeting first_name
  let asks :=
    (if !order_present then
       [str "your Shopify order number (e.g. #1234) — if not handy, your full name, checkout email, and shipping postcode work perfectly"]
     else []) ++
    (if need_model_link then
       [str "the exact model name of your bag or a direct link to the one you own"] else [])
  let ask_line := joinSep (str " and ") asks
  let thanks_photo := if photo_present then str "Thanks for the photo — that’s very helpful. " else []
  g ++ str "\n\nThanks for your message! To make sure the fit is perfect, could you please share " ++
  ask_line ++ str "? " ++ thanks_photo ++ NO_RETURN_SENTENCE ++
  str "\n\nBest regards,\n" ++ SIGNATURE_NAME

/-- `build_shopify_materials` (lines 415-423). -/
def build_shopify_materials (first_name : Str) (bag_model : Option Str) (with_thanks : Bool) : Str :=
  let g := greeting first_name
  let open_line := if with_thanks then
      str "Thank you so much for your kind words — it truly means a lot! "
    else str "Thanks for your message! "
  let model_part := match bag_model with
    | some m => str "For your " ++ m ++ str ", "
    | none => str "For your bag, "
  g ++ str "\n\n" ++ open_line ++ model_part ++
  str "we can craft the organizer in different materials: silk (softer and thinner), nylon (lightweight and waterproof), or felt if you’d still like some structure. Let me know which option you prefer and I’ll arrange it for you.\n\nBest regards,\n" ++
  SIGNATURE_NAME

/-- `build_shopify_custom_size` (lines 425-432). -/
def build_shopify_custom_size (first_name : Str) : Str :=
  greeting first_name ++
  str "\n\nAbsolutely — custom sizing is no problem, and it’s the same price and timing as standard (production 48h). To get the fit just right, could you please share the inside dimensions of your bag (Length × Height × Width)? If it’s easier, a quick photo of the inside also helps.\n\nOnce I have this, I’ll confirm the cut for you.\n\nBest regards,\n" ++
  SIGNATURE_NAME

/-- `build_shade_photo_request` (lines 434-439); note the literal `Noe` signature. -/
def build_shade_photo_request (first_name : Str) : Str :=
  greeting first_name ++
  str "\n\nHappy to help with the shade. Could you please send a quick photo of the organizer inside the bag, in good light? That way I can recommend the best matching shade right away.\n\nThanks!\nNoe"

/-- `build_public_tracking_message` (lines 448-458). -/
def build_public_tracking_message (tracking first_name : Str) : Str :=
  let hello := if first_name.isEmpty then str "Hi again!" else str "Hi " ++ first_name ++ str "!"
  hello ++ str "\n\nHere is the tracking number for your replacement: " ++ tracking ++
  str "\nYou can follow the updates of your package by clicking on the link below:\nhttps://t.17track.net/en#nums=" ++
  tracking ++
  str "\n\nFeel free to reach out if you have any questions or concerns along the way. Wishing you a smooth delivery experience!\n\nWarm regards,\n" ++
  SIGNATURE_NAME

/-- `build_public_tracking_correction_message` (lines 460-471). -/
def build_public_tracking_correction_message (tracking first_name : Str) : Str :=
  let hello := if first_name.isEmpty then str "Hi there!" else str "Hi " ++ first_name ++ str "!"
  hello ++ str " Please disregard our previous message.\n\nHere is the correct tracking number for your replacement:\n" ++
  tracking ++
  str "\n\nYou can follow the updates of your package by clicking on the link below:\nhttps://t.17track.net/en#nums=" ++
  tracking ++
  str "\n\nFeel free to reach out if you have any questions or concerns along the way. Wishing you a smooth delivery experience!\n\nWarm regards,\n" ++
  SIGNATURE_NAME

/-- `build_ack_review_request` (lines 473-483). -/
def build_ack_review_request (first_name : Str) : Str :=
  let name := if first_name.isEmpty then str "there" else first_name
  str "Hi again " ++ name ++
  str "!\n\nI’m so happy to hear that your replacement fits perfectly in your bag! Thank you for sharing this with me — it truly makes my day.\n\nIf you ever feel like sharing your experience, we’d be so grateful for a quick review with a photo of your organizer inside your bag. It really helps other customers and means a lot to our small business.\n\nHowever thanks again for your kind words and support!\n\nWarm regards,\n" ++
  SIGNATURE_NAME

/-- `build_return_only` (lines 504-513). -/
def build_return_only (first_name : Str) : Str :=
  greeting first_name ++
  str "\n\nNo need to send it back — we’ll take care of everything on our end. You can keep it and use it to protect your bag while waiting for the new one, or dispose of it if you don’t need it anymore.\n\nWishing you a wonderful day,\n" ++
  SIGNATURE_NAME

/-- `build_return_appendix` (lines 515-520). -/
def build_return_appendix : Str :=
  str "No need to send the old one back — we’ll take care of everything on our end. You can keep it and use it to protect your bag while waiting for the new one, or dispose of it if you don’t need it anymore."

/-- The message of the review-already-left branch (lines 621-627); literal `Noe`. -/
def review_left_message (first_name : Str) : Str :=
  str "Oh wow, what a wonderful news! Thank you so much from the bottom of our hearts for your incredible support.\n\nWe feel genuinely lucky and honored to have a customer like you, " ++
  first_name ++
  str ", and we really hope to see you again in the future.\n\nWishing you a lovely rest of the week,\nNoe"

/-- The message of the review-promised branch (lines 630-636); literal `Noe`. -/
def review_promised_message (first_name : Str) : Str :=
  str "That’s so kind of you, " ++ first_name ++
  str "! We honestly can’t wait to read your review once it’s published.\n\nIt truly means a lot to us to know you’re planning to share your experience — thank you for being so thoughtful.\n\nWishing you a wonderful day ahead,\nNoe"

/-- The inline generic-email need-info message (lines 704-710); note that it
does not embed `NO_RETURN_SENTENCE`. -/
def generic_need_info_message (first_name : Str) (photo_present : Bool) : Str :=
  greeting first_name ++
  str "\n\nThanks for your message! To make sure the fit is perfect, could you please share the exact model name of your bag or a direct link to the one you own? " ++
  (if photo_present then str "Thanks for the photo — that’s very helpful. " else []) ++
  str "If you’ve already placed an order, feel free to include your order number as well.\n\nBest regards,\n" ++
  SIGNATURE_NAME

/-- The draft marker prefix (`"[Suggested reply by ChatGPT — please review and send]\n\n"`). -/
def DRAFT_MARKER : Str := str "[Suggested reply by ChatGPT — please review and send]\n\n"

/-! ## Tracking publication state machine (lines 715-781)

`handle_tracking_if_any` performs REST mutations; the embedding returns the
proposed effects: the public reply (if any), the tags added (through
`additional_tags`/`ensure_tags`), the tags removed, whether the status is set
to solved, and the function's Boolean result. -/

/-- The effects proposed by one evaluation of `handle_tracking_if_any`. -/
structure TrackEffects where
  public_reply : Option Str
  add_tags : List Str
  remove_tags : List Str
  set_solved : Bool
  acted : Bool
deriving DecidableEq

/-- The no-action result (`return False` without any REST write). -/
def noEffects : TrackEffects := ⟨none, [], [], false, false⟩

/-- `handle_tracking_if_any` (lines 715-781), with the comment list supplied
explicitly (the source fetches it through `get_ticket_comments`). -/
def handle_tracking_if_any (ticket : Ticket) (comments : List Comment) : TrackEffects :=
  let first_name := ticket.requester_first_name
  let tags := ticket.tags
  match ticket.tracking_field with
  | none => noEffects
  | some current_tracking =>
    if current_tracking.isEmpty then noEffects
    else
      let current_guard := TRACKING_SENT_PREFIX ++ normalize_tag current_tracking
      match current_sent_tracking_tag tags with
      | some existing_guard =>
        if existing_guard ≠ current_guard then
          if tags.contains current_guard ||
             last_public_comment_contains_tracking comments current_tracking then
            ⟨none, [TAG_REPLACEMENT_SENT, current_guard], [existing_guard], true, true⟩
          else
            ⟨some (build_public_tracking_correction_message current_tracking first_name),
             [TAG_REPLACEMENT_SENT, current_guard], [existing_guard], true, true⟩
        else noEffects
      | none =>
        if last_public_comment_contains_tracking comments current_tracking then
          ⟨none, [TAG_REPLACEMENT_SENT, current_guard], [], true, true⟩
        else
          ⟨some (build_public_tracking_message current_tracking first_name),
           [TAG_REPLACEMENT_SENT, current_guard], [], true, true⟩

/-- Applies the proposed effects to the externally-visible ticket state:
the public reply is appended to the thread, tags become
`sorted(set(tags + additional) - removed)` (the net result of
`add_public_reply_and_tags`/`ensure_tags` followed by `remove_tags`), and the
status becomes solved when requested.  A non-acting evaluation performs no
REST write at all. -/
def apply_effects (ticket : Ticket) (comments : List Comment) (e : TrackEffects) :
    Ticket × List Comment :=
  if e.acted then
    let comments2 := match e.public_reply with
      | some b => comments ++ [⟨true, 0, b, []⟩]
      | none => comments
    let merged := sortStrs (dedupStrs (ticket.tags ++ e.add_tags))
    let tags2 := sortStrs (merged.filter (fun t => !(e.remove_tags.contains t)))
    let status2 := if e.set_solved then str "solved" else ticket.status
    ({ticket with tags := tags2, status := status2}, comments2)
  else (ticket, comments)

/-! ## Intent classification and draft composition (lines 582-712)

`compose_draft` is one cascade of conditionals each returning a draft
string.  The embedding splits it into `classify` (the branch selected, an
`Intent`) and `compose_draft` (the draft string built in that branch, with
the same arguments as the source). -/

/-- The intent variants, one per return branch of `compose_draft`. -/
inductive Intent where
  | pureThanks
  | reviewLeft
  | reviewPromised
  | chainCase (case : ChainCase)
  | shopifyMaterials
  | shopifyCustomSize
  | shadePhotoRequest
  | explicitReplacement (kws : List Str)
  | returnOnly
  | needInfoShopify
  | needInfoAmazon
  | needInfoGeneric
deriving DecidableEq

/-- The keyword list echoed by the explicit-replacement branch (lines
674-678): split the summary on commas, strip, drop empties, cap at two. -/
def explicitKws (text : Str) : List Str :=
  let kw_raw := summarize_keywords text
  let kws := ((splitChar ',' kw_raw).map pyStrip).filter (fun k => !k.isEmpty)
  if kws.length > 2 then kws.take 2 else kws

/-- The default used for `comments[-1]` on an empty thread; `process_once`
only calls the composer on non-empty threads. -/
def emptyComment : Comment := ⟨true, 0, [], []⟩

/-- The local `text` of `compose_draft` (line 584): the stripped body of the
last comment. -/
def last_text (comments : List Comment) : Str :=
  pyStrip (comments.getLastD emptyComment).body

/-- The local `thread_text` of `compose_draft` (line 595): all bodies plus
the subject, space-joined. -/
def thread_text (ticket : Ticket) (comments : List Comment) : Str :=
  joinSep (str " ") (comments.map (·.body) ++ [ticket.subject])

/-- The local `first_name` of `compose_draft` (lines 590-592): the
storefront-form name when the origin is Shopify, else the requester's. -/
def resolved_first_name (ticket : Ticket) (comments : List Comment) : Str :=
  (if classify_origin ticket comments == str "shopify"
   then extract_first_name_from_shopify_body comments
   else none).getD ticket.requester_first_name

/-- The branch cascade of `compose_draft` (lines 582-712). -/
def classify (ticket : Ticket) (comments : List Comment) : Intent :=
  if is_pure_thanks (last_text comments) ||
     is_pure_thanks (thread_text ticket comments) then .pureThanks
  else if reSearch REVIEW_LEFT_RE (lowerStr (last_text comments)) &&
          !reSearch REVIEW_CONDITIONAL_RE (lowerStr (last_text comments)) then .reviewLeft
  else if reSearch REVIEW_FUTURE_RE (lowerStr (last_text comments)) &&
          !reSearch REVIEW_CONDITIONAL_RE (lowerStr (last_text comments)) then .reviewPromised
  else
    match detect_chain_case (last_text comments) with
    | some c => .chainCase c
    | none =>
      if classify_origin ticket comments == str "shopify" &&
         !order_number_present (thread_text ticket comments) &&
         contains_any (last_text comments) PRE_SALE_MATERIAL_TRIGGERS &&
         !is_explicit_request (last_text comments) then .shopifyMaterials
      else if classify_origin ticket comments == str "shopify" &&
              !order_number_present (thread_text ticket comments) &&
              contains_any (last_text comments) PRE_SALE_CUSTOM_TRIGGERS &&
              !is_explicit_request (last_text comments) then .shopifyCustomSize
      else if (isSub (str "shade") (lowerStr (last_text comments)) ||
               isSub (str "match") (lowerStr (last_text comments))) &&
              !thread_has_any_photo comments then .shadePhotoRequest
      else if is_explicit_request (last_text comments) then
        .explicitReplacement (explicitKws (last_text comments))
      else if reSearch RETURN_REQUEST_RE (lowerStr (last_text comments)) &&
              !is_explicit_request (last_text comments) then .returnOnly
      else if classify_origin ticket comments == str "shopify" then .needInfoShopify
      else if classify_origin ticket comments == str "amazon_qr" then .needInfoAmazon
      else if isSub (str "amazon") (lowerStr (thread_text ticket comments)) then .needInfoAmazon
      else .needInfoGeneric

/-- `compose_draft` (lines 582-712): the draft string returned by the branch
`classify` selects, with the same arguments the source passes to each
builder. -/
def compose_draft (ticket : Ticket) (comments : List Comment) : Str :=
  DRAFT_MARKER ++
  (match classify ticket comments with
   | .pureThanks => build_ack_review_request (resolved_first_name ticket comments)
   | .reviewLeft => review_left_message (resolved_first_name ticket comments)
   | .reviewPromised => review_promised_message (resolved_first_name ticket comments)
   | .chainCase c => build_chain_reply c (resolved_first_name ticket comments)
   | .shopifyMaterials =>
     build_shopify_materials (resolved_first_name ticket comments)
       (if (pyStrip ticket.subject).isEmpty then none else some (pyStrip ticket.subject))
       (has_compliment (thread_text ticket comments))
   | .shopifyCustomSize => build_shopify_custom_size (resolved_first_name ticket comments)
   | .shadePhotoRequest => build_shade_photo_request (resolved_first_name ticket comments)
   | .explicitReplacement kws =>
     if reSearch RETURN_REQUEST_RE (lowerStr (last_text comments)) then
       replaceSub TRACK_SHARE_LINE
         (build_return_appendix ++ str "\n" ++ TRACK_SHARE_LINE)
         (build_accept_replacement (resolved_first_name ticket comments)
           (joinSep (str ", ") kws))
     else
       build_accept_replacement (resolved_first_name ticket comments)
         (joinSep (str ", ") kws)
   | .returnOnly => build_return_only (resolved_first_name ticket comments)
   | .needInfoShopify =>
     build_need_info_shopify (resolved_first_name ticket comments) true false
       (message_has_photo (comments.getLastD emptyComment))
   | .needInfoAmazon =>
     build_need_info_amazon (resolved_first_name ticket comments) true
       (order_number_present (thread_text ticket comments))
       (message_has_photo (comments.getLastD emptyComment))
   | .needInfoGeneric =>
     generic_need_info_message (resolved_first_name ticket comments)
       (message_has_photo (comments.getLastD emptyComment)))

/-! ## Draft gating (`process_once`, lines 807-837) -/

/-- The per-ticket draft gate of `process_once`: `true` exactly when the pass
composes and posts a draft for this ticket. -/
def draft_gate (ticket : Ticket) (comments : List Comment) : Bool :=
  !(ticket.status == str "solved" || ticket.status == str "closed") &&
  !comments.isEmpty &&
  last_is_end_user_public ticket comments &&
  !(ticket.tags.contains DRAFT_TAG &&
    !user_wrote_after_last_internal comments ticket.requester_id)

/-! ## Auxiliary specification-side definitions -/

/-- A well-formed echo keyword: non-empty, comma-free, no surrounding
whitespace.  Every word the keyword summary can pick satisfies this. -/
def cleanKw : Str → Bool
  | [] => false
  | c :: rest =>
    !(c :: rest).contains ',' && !isWS c && !isWS ((c :: rest).getLastD ' ')

/-- Position of the first occurrence of `needle` in a text (Python
`str.find`, as an `Option`), used to state encounter order. -/
def subPos (needle : Str) : Str → Option Nat
  | [] => if needle.isEmpty then some 0 else none
  | c :: rest =>
    if needle.isPrefixOf (c :: rest) then some 0
    else (subPos needle rest).map (· + 1)

/-! ## Basic lemmas about the text operations -/

theorem isPrefixOf_iff_exists {l₁ l₂ : Str} :
    l₁.isPrefixOf l₂ = true ↔ ∃ t, l₂ = l₁ ++ t := by
  induction l₁ generalizing l₂ with
  | nil => simp [List.isPrefixOf]
  | cons a as ih =>
    cases l₂ with
    | nil =>
      simp [List.isPrefixOf]
    | cons b bs =>
      simp only [List.isPrefixOf, Bool.and_eq_true, beq_iff_eq, ih, List.cons_append]
      constructor
      · rintro ⟨rfl, t, rfl⟩
        exact ⟨t, rfl⟩
      · rintro ⟨t, h⟩
        obtain ⟨rfl, rfl⟩ := by simpa using h
        exact ⟨rfl, t, rfl⟩

theorem isSub_iff {n h : Str} : isSub n h = true ↔ ∃ a b, h = a ++ n ++ b := by
  induction h with
  | nil =>
    simp only [isSub, List.isEmpty_iff]
    constructor
    · rintro rfl; exact ⟨[], [], rfl⟩
    · rintro ⟨a, b, hab⟩
      rcases List.append_eq_nil.mp (List.append_eq_nil.mp hab.symm).1 with ⟨-, h2⟩
      exact h2
  | cons c rest ih =>
    simp only [isSub, Bool.or_eq_true, isPrefixOf_iff_exists, ih]
    constructor
    · rintro (⟨t, ht⟩ | ⟨a, b, hab⟩)
      · exact ⟨[], t, by simp [ht]⟩
      · exact ⟨c :: a, b, by simp [hab]⟩
    · rintro ⟨a, b, hab⟩
      cases a with
      | nil => exact Or.inl ⟨b, by simpa using hab⟩
      | cons x xs =>
        right
        refine ⟨xs, b, ?_⟩
        have := congrArg List.tail hab
        simpa [List.cons_append] using this

theorem isSub_of_parts (a n b : Str) : isSub n (a ++ n ++ b) = true :=
  isSub_iff.mpr ⟨a, b, rfl⟩

theorem normalize_tag_append (a b : Str) :
    normalize_tag (a ++ b) = normalize_tag a ++ normalize_tag b := by
  simp [normalize_tag, lowerStr]

theorem mem_insSorted {x a : Str} {l : List Str} :
    a ∈ insSorted x l ↔ a = x ∨ a ∈ l := by
  induction l with
  | nil => simp [insSorted]
  | cons y ys ih =>
    simp only [insSorted]
    split
    · simp
    · simp [ih]; tauto

theorem mem_sortStrs {a : Str} {l : List Str} : a ∈ sortStrs l ↔ a ∈ l := by
  induction l with
  | nil => simp [sortStrs]
  | cons x xs ih => simp [sortStrs, mem_insSorted, ih]

theorem mem_dedupStrs {a : Str} {l : List Str} : a ∈ dedupStrs l ↔ a ∈ l := by
  induction l with
  | nil => simp [dedupStrs]
  | cons x xs ih =>
    simp only [dedupStrs]
    split
    · rename_i hx
      simp only [ih, List.mem_cons]
      constructor
      · exact Or.inr
      · rintro (rfl | h)
        exacts [hx, h]
    · simp [ih]

theorem find?_eq_some_of_mem {α : Type} {p : α → Bool} {l : List α} {a : α}
    (ha : a ∈ l) (hpa : p a = true) (huniq : ∀ x ∈ l, p x = true → x = a) :
    l.find? p = some a := by
  induction l with
  | nil => cases ha
  | cons x xs ih =>
    by_cases hx : p x = true
    · rw [List.find?_cons_of_pos _ hx, huniq x (List.mem_cons_self x xs) hx]
    · have hax : a ≠ x := fun h => hx (h ▸ hpa)
      have ha' : a ∈ xs := by
        rcases List.mem_cons.mp ha with rfl | h
        · exact absurd rfl hax
        · exact h
      rw [List.find?_cons_of_neg _ (by simpa using hx)]
      exact ih ha' (fun x hx hp => huniq x (List.mem_cons_of_mem _ hx) hp)

theorem find?_eq_head?_filter {α : Type} (p : α → Bool) (l : List α) :
    l.find? p = (l.filter p).head? := by
  induction l with
  | nil => rfl
  | cons x xs ih =>
    by_cases hx : p x = true
    · rw [List.find?_cons_of_pos _ hx, List.filter_cons_of_pos hx]
      rfl
    · rw [List.find?_cons_of_neg _ (by simpa using hx),
        List.filter_cons_of_neg (by simpa using hx), ih]

/-- Membership in the tag set after `ensure_tags` plus `remove_tags`. -/
theorem mem_applied_tags {tags adds removes : List Str} {x : Str} :
    x ∈ sortStrs ((sortStrs (dedupStrs (tags ++ adds))).filter
        (fun t => !(removes.contains t))) ↔
      (x ∈ tags ∨ x ∈ adds) ∧ x ∉ removes := by
  simp [mem_sortStrs, List.mem_filter, mem_dedupStrs, List.elem_iff]

/-- After applying acting effects whose added tags contain the current guard,
whose removed tags do not, and which leave no other prefixed tag behind, the
first `tracking_sent_` tag found is the current guard. -/
theorem current_guard_after_apply {tags adds removes : List Str} {cg : Str}
    (hpre : TRACKING_SENT_PREFIX.isPrefixOf cg = true)
    (hin : cg ∈ adds) (hout : cg ∉ removes)
    (honly : ∀ x, x ∈ tags ∨ x ∈ adds → TRACKING_SENT_PREFIX.isPrefixOf x = true →
      x ∈ removes ∨ x = cg) :
    current_sent_tracking_tag
      (sortStrs ((sortStrs (dedupStrs (tags ++ adds))).filter
        (fun t => !(removes.contains t)))) = some cg := by
  apply find?_eq_some_of_mem
  · exact mem_applied_tags.mpr ⟨Or.inr hin, hout⟩
  · exact hpre
  · intro x hx hp
    obtain ⟨hsrc, hrem⟩ := mem_applied_tags.mp hx
    rcases honly x hsrc hp with h | h
    · exact absurd h hrem
    · exact h

theorem pre_of_guard (z : Str) :
    TRACKING_SENT_PREFIX.isPrefixOf (TRACKING_SENT_PREFIX ++ z) = true :=
  isPrefixOf_iff_exists.mpr ⟨z, rfl⟩

theorem not_pre_repl : TRACKING_SENT_PREFIX.isPrefixOf TAG_REPLACEMENT_SENT = false := by
  decide

/-! ### Branch evaluations of `handle_tracking_if_any` -/

theorem handle_of_field_none {t : Ticket} {comments : List Comment}
    (hf : t.tracking_field = none) :
    handle_tracking_if_any t comments = noEffects := by
  simp [handle_tracking_if_any, hf]

theorem handle_of_field_empty {t : Ticket} {comments : List Comment} {B : Str}
    (hf : t.tracking_field = some B) (hB : B.isEmpty = true) :
    handle_tracking_if_any t comments = noEffects := by
  simp [handle_tracking_if_any, hf, hB]

theorem handle_of_guard_current {t : Ticket} {comments : List Comment} {B : Str}
    (hf : t.tracking_field = some B) (hB : B.isEmpty = false)
    (hg : current_sent_tracking_tag t.tags =
      some (TRACKING_SENT_PREFIX ++ normalize_tag B)) :
    handle_tracking_if_any t comments = noEffects := by
  simp [handle_tracking_if_any, hf, hB, hg]

theorem handle_of_retro_correction {t : Ticket} {comments : List Comment} {B eg : Str}
    (hf : t.tracking_field = some B) (hB : B.isEmpty = false)
    (hg : current_sent_tracking_tag t.tags = some eg)
    (hne : eg ≠ TRACKING_SENT_PREFIX ++ normalize_tag B)
    (hcond : (t.tags.contains (TRACKING_SENT_PREFIX ++ normalize_tag B) ||
      last_public_comment_contains_tracking comments B) = true) :
    handle_tracking_if_any t comments =
      ⟨none, [TAG_REPLACEMENT_SENT, TRACKING_SENT_PREFIX ++ normalize_tag B],
       [eg], true, true⟩ := by
  have hcond' : (TRACKING_SENT_PREFIX ++ normalize_tag B) ∈ t.tags ∨
      last_public_comment_contains_tracking comments B = true := by
    simpa using hcond
  simp [handle_tracking_if_any, hf, hB, hg, hne]
  intro hnm
  rcases hcond' with h | h
  · exact absurd h hnm
  · exact h

theorem handle_of_correction {t : Ticket} {comments : List Comment} {B eg : Str}
    (hf : t.tracking_field = some B) (hB : B.isEmpty = false)
    (hg : current_sent_tracking_tag t.tags = some eg)
    (hne : eg ≠ TRACKING_SENT_PREFIX ++ normalize_tag B)
    (hcond : (t.tags.contains (TRACKING_SENT_PREFIX ++ normalize_tag B) ||
      last_public_comment_contains_tracking comments B) = false) :
    handle_tracking_if_any t comments =
      ⟨some (build_public_tracking_correction_message B t.requester_first_name),
       [TAG_REPLACEMENT_SENT, TRACKING_SENT_PREFIX ++ normalize_tag B],
       [eg], true, true⟩ := by
  have hcond' : (TRACKING_SENT_PREFIX ++ normalize_tag B) ∉ t.tags ∧
      last_public_comment_contains_tracking comments B = false := by
    simpa using hcond
  simp [handle_tracking_if_any, hf, hB, hg, hne, hcond'.1, hcond'.2]

theorem handle_of_retro_tag {t : Ticket} {comments : List Comment} {B : Str}
    (hf : t.tracking_field = some B) (hB : B.isEmpty = false)
    (hg : current_sent_tracking_tag t.tags = none)
    (hlast : last_public_comment_contains_tracking comments B = true) :
    handle_tracking_if_any t comments =
      ⟨none, [TAG_REPLACEMENT_SENT, TRACKING_SENT_PREFIX ++ normalize_tag B],
       [], true, true⟩ := by
  simp [handle_tracking_if_any, hf, hB, hg, hlast]

theorem handle_of_first_send {t : Ticket} {comments : List Comment} {B : Str}
    (hf : t.tracking_field = some B) (hB : B.isEmpty = false)
    (hg : current_sent_tracking_tag t.tags = none)
    (hlast : last_public_comment_contains_tracking comments B = false) :
    handle_tracking_if_any t comments =
      ⟨some (build_public_tracking_message B t.requester_first_name),
       [TAG_REPLACEMENT_SENT, TRACKING_SENT_PREFIX ++ normalize_tag B],
       [], true, true⟩ := by
  simp [handle_tracking_if_any, hf, hB, hg, hlast]

/-! ### The applied state -/

theorem apply_noEffects (t : Ticket) (comments : List Comment) :
    apply_effects t comments noEffects = (t, comments) := by
  simp [apply_effects, noEffects]

theorem apply_acted_tracking_field {t : Ticket} {comments : List Comment} {e : TrackEffects}
    (h : e.acted = true) :
    (apply_effects t comments e).1.tracking_field = t.tracking_field := by
  simp [apply_effects, h]

theorem apply_acted_tags {t : Ticket} {comments : List Comment} {e : TrackEffects}
    (h : e.acted = true) :
    (apply_effects t comments e).1.tags =
      sortStrs ((sortStrs (dedupStrs (t.tags ++ e.add_tags))).filter
        (fun tg => !(e.remove_tags.contains tg))) := by
  simp [apply_effects, h]

/-- After applying acting effects that add the current guard, do not remove
it, and remove every other prefixed tag of the ticket, the next evaluation is
a no-op. -/
theorem second_run_noop_of_acted {t : Ticket} {comments : List Comment} {B : Str}
    (hf : t.tracking_field = some B) (hB : B.isEmpty = false)
    (e : TrackEffects) (hacted : e.acted = true)
    (hadds : e.add_tags =
      [TAG_REPLACEMENT_SENT, TRACKING_SENT_PREFIX ++ normalize_tag B])
    (honly : ∀ x ∈ t.tags, TRACKING_SENT_PREFIX.isPrefixOf x = true →
      x ∈ e.remove_tags ∨ x = TRACKING_SENT_PREFIX ++ normalize_tag B)
    (hout : (TRACKING_SENT_PREFIX ++ normalize_tag B) ∉ e.remove_tags) :
    handle_tracking_if_any (apply_effects t comments e).1
      (apply_effects t comments e).2 = noEffects := by
  apply handle_of_guard_current (B := B)
  · rw [apply_acted_tracking_field hacted, hf]
  · exact hB
  · rw [apply_acted_tags hacted]
    apply current_guard_after_apply (pre_of_guard _)
    · rw [hadds]; simp
    · exact hout
    · intro x hx hp
      rcases hx with hx | hx
      · exact honly x hx hp
      · rw [hadds] at hx
        rcases List.mem_cons.mp hx with rfl | hx
        · rw [not_pre_repl] at hp; cases hp
        · rcases List.mem_cons.mp hx with rfl | hx
          · exact Or.inr rfl
          · cases hx

/-- C2 (amended): on a ticket whose tag set holds at most one tracking guard
tag, one evaluation of the machine followed by the application of its effects
leaves a state on which a second evaluation proposes nothing. -/
theorem tracking_second_evaluation_noop (t : Ticket) (comments : List Comment)
    (H : ∀ x ∈ t.tags, ∀ y ∈ t.tags,
      TRACKING_SENT_PREFIX.isPrefixOf x = true →
      TRACKING_SENT_PREFIX.isPrefixOf y = true → x = y) :
    handle_tracking_if_any
      (apply_effects t comments (handle_tracking_if_any t comments)).1
      (apply_effects t comments (handle_tracking_if_any t comments)).2 = noEffects := by
  rcases hf : t.tracking_field with _ | B
  · rw [handle_of_field_none hf, apply_noEffects, handle_of_field_none hf]
  · by_cases hB : B.isEmpty = true
    · rw [handle_of_field_empty hf hB, apply_noEffects, handle_of_field_empty hf hB]
    · replace hB : B.isEmpty = false := by simpa using hB
      rcases hg : current_sent_tracking_tag t.tags with _ | eg
      · have heg_none : ∀ x ∈ t.tags, ¬ TRACKING_SENT_PREFIX.isPrefixOf x = true :=
          fun x hx => by simpa using List.find?_eq_none.mp hg x hx
        by_cases hlast : last_public_comment_contains_tracking comments B = true
        · rw [handle_of_retro_tag hf hB hg hlast]
          exact second_run_noop_of_acted hf hB _ rfl rfl
            (fun x hx hp => absurd hp (heg_none x hx)) (by simp)
        · replace hlast : last_public_comment_contains_tracking comments B = false := by
            simpa using hlast
          rw [handle_of_first_send hf hB hg hlast]
          exact second_run_noop_of_acted hf hB _ rfl rfl
            (fun x hx hp => absurd hp (heg_none x hx)) (by simp)
      · have heg_mem : eg ∈ t.tags := List.mem_of_find?_eq_some hg
        have heg_pre : TRACKING_SENT_PREFIX.isPrefixOf eg = true := List.find?_some hg
        by_cases heq : eg = TRACKING_SENT_PREFIX ++ normalize_tag B
        · rw [heq] at hg
          rw [handle_of_guard_current hf hB hg, apply_noEffects,
            handle_of_guard_current hf hB hg]
        · have honly : ∀ x ∈ t.tags, TRACKING_SENT_PREFIX.isPrefixOf x = true →
              x ∈ [eg] ∨ x = TRACKING_SENT_PREFIX ++ normalize_tag B :=
            fun x hx hp => Or.inl (by simp [H x hx eg heg_mem hp heg_pre])
          have hout : (TRACKING_SENT_PREFIX ++ normalize_tag B) ∉ [eg] := by
            simp only [List.mem_singleton]
            exact fun h => heq h.symm
          by_cases hcond : (t.tags.contains (TRACKING_SENT_PREFIX ++ normalize_tag B) ||
              last_public_comment_contains_tracking comments B) = true
          · rw [handle_of_retro_correction hf hB hg heq hcond]
            exact second_run_noop_of_acted hf hB _ rfl rfl honly hout
          · replace hcond := Bool.eq_false_iff.mpr hcond
            rw [handle_of_correction hf hB hg heq hcond]
            exact second_run_noop_of_acted hf hB _ rfl rfl honly hout

/-- C2 witness: a first announcement on a guard-free ticket, after which the
second evaluation is a no-op. -/
theorem tracking_second_evaluation_noop_witness :
    (∀ x ∈ ([] : List Str), ∀ y ∈ ([] : List Str),
      TRACKING_SENT_PREFIX.isPrefixOf x = true →
      TRACKING_SENT_PREFIX.isPrefixOf y = true → x = y) ∧
    handle_tracking_if_any
      (apply_effects ⟨4, str "open", 7, [], [], str "email", some (str "UK123456789"), str "Cy"⟩
        [] (handle_tracking_if_any
          ⟨4, str "open", 7, [], [], str "email", some (str "UK123456789"), str "Cy"⟩ [])).1
      (apply_effects ⟨4, str "open", 7, [], [], str "email", some (str "UK123456789"), str "Cy"⟩
        [] (handle_tracking_if_any
          ⟨4, str "open", 7, [], [], str "email", some (str "UK123456789"), str "Cy"⟩ [])).2 =
      noEffects :=
  ⟨by decide,
   tracking_second_evaluation_noop
     ⟨4, str "open", 7, [], [], str "email", some (str "UK123456789"), str "Cy"⟩ []
     (by decide)⟩

/-- C2 counterexample: with two stale guard tags in the tag set, the second
evaluation still removes a tag (and posts nothing but re-solves), so running
the machine twice is not a no-op on arbitrary ticket states. -/
theorem tracking_idempotence_counterexample :
    (handle_tracking_if_any
      (apply_effects
        ⟨5, str "open", 7, [], [str "tracking_sent_a", str "tracking_sent_0"],
          str "email", some (str "b"), str "Cy"⟩
        [] (handle_tracking_if_any
          ⟨5, str "open", 7, [], [str "tracking_sent_a", str "tracking_sent_0"],
            str "email", some (str "b"), str "Cy"⟩ [])).1
      (apply_effects
        ⟨5, str "open", 7, [], [str "tracking_sent_a", str "tracking_sent_0"],
          str "email", some (str "b"), str "Cy"⟩
        [] (handle_tracking_if_any
          ⟨5, str "open", 7, [], [str "tracking_sent_a", str "tracking_sent_0"],
            str "email", some (str "b"), str "Cy"⟩ [])).2) =
      ⟨none, [str "replacement_sent", str "tracking_sent_b"],
       [str "tracking_sent_0"], true, true⟩ := by
  decide

/-- C1: with the guard for value `A` as the only guard tag, a non-empty
tracking value `B` whose normalization differs from `A`, and a last public
comment not containing `B`, one evaluation posts exactly one public
correction containing `B`, swaps the guards, forces the replacement-sent
tag, solves the ticket, and a second evaluation proposes nothing. -/
theorem tracking_correction_property (t : Ticket) (comments : List Comment) (A B : Str)
    (hguards : t.tags.filter (fun x => TRACKING_SENT_PREFIX.isPrefixOf x) =
      [TRACKING_SENT_PREFIX ++ A])
    (hf : t.tracking_field = some B) (hB : B.isEmpty = false)
    (hAB : A ≠ normalize_tag B)
    (hlast : last_public_comment_contains_tracking comments B = false) :
    handle_tracking_if_any t comments =
      ⟨some (build_public_tracking_correction_message B t.requester_first_name),
       [TAG_REPLACEMENT_SENT, TRACKING_SENT_PREFIX ++ normalize_tag B],
       [TRACKING_SENT_PREFIX ++ A], true, true⟩ ∧
    isSub B (build_public_tracking_correction_message B t.requester_first_name) = true ∧
    handle_tracking_if_any
      (apply_effects t comments (handle_tracking_if_any t comments)).1
      (apply_effects t comments (handle_tracking_if_any t comments)).2 = noEffects := by
  have hg : current_sent_tracking_tag t.tags = some (TRACKING_SENT_PREFIX ++ A) := by
    rw [current_sent_tracking_tag, find?_eq_head?_filter, hguards]; rfl
  have hmemf : ∀ x ∈ t.tags, TRACKING_SENT_PREFIX.isPrefixOf x = true →
      x = TRACKING_SENT_PREFIX ++ A := by
    intro x hx hp
    have : x ∈ t.tags.filter (fun x => TRACKING_SENT_PREFIX.isPrefixOf x) :=
      List.mem_filter.mpr ⟨hx, hp⟩
    rw [hguards] at this
    simpa using this
  have hne : TRACKING_SENT_PREFIX ++ A ≠ TRACKING_SENT_PREFIX ++ normalize_tag B :=
    fun h => hAB (List.append_cancel_left h)
  have hnotmem : (TRACKING_SENT_PREFIX ++ normalize_tag B) ∉ t.tags := by
    intro hmem
    exact hne ((hmemf _ hmem (pre_of_guard _)).symm)
  have hcontains : t.tags.contains (TRACKING_SENT_PREFIX ++ normalize_tag B) = false := by
    rw [← Bool.not_eq_true]
    simpa [List.elem_iff] using hnotmem
  have hcond : (t.tags.contains (TRACKING_SENT_PREFIX ++ normalize_tag B) ||
      last_public_comment_contains_tracking comments B) = false := by
    rw [hcontains, hlast]; rfl
  have he := handle_of_correction hf hB hg hne hcond
  refine ⟨he, ?_, ?_⟩
  · rw [isSub_iff]
    refine ⟨(if t.requester_first_name.isEmpty then str "Hi there!"
        else str "Hi " ++ t.requester_first_name ++ str "!") ++
      str " Please disregard our previous message.\n\nHere is the correct tracking number for your replacement:\n",
      str "\n\nYou can follow the updates of your package by clicking on the link below:\nhttps://t.17track.net/en#nums=" ++
      B ++
      str "\n\nFeel free to reach out if you have any questions or concerns along the way. Wishing you a smooth delivery experience!\n\nWarm regards,\n" ++
      SIGNATURE_NAME, ?_⟩
    simp [build_public_tracking_correction_message, List.append_assoc]
  · rw [he]
    refine second_run_noop_of_acted hf hB _ rfl rfl ?_ ?_
    · intro x hx hp
      exact Or.inl (by simp [hmemf x hx hp])
    · simp only [List.mem_singleton]
      exact fun h => hne h.symm

/-- C1 witness: guard for `abc`, new value `XYZ9`, empty thread. -/
theorem tracking_correction_property_witness :
    ((⟨9, str "open", 7, [], [str "tracking_sent_" ++ str "abc"], str "email",
        some (str "XYZ9"), str "Cy"⟩ : Ticket).tags.filter
          (fun x => TRACKING_SENT_PREFIX.isPrefixOf x) =
        [TRACKING_SENT_PREFIX ++ str "abc"]) ∧
    str "abc" ≠ normalize_tag (str "XYZ9") ∧
    (handle_tracking_if_any
      ⟨9, str "open", 7, [], [str "tracking_sent_" ++ str "abc"], str "email",
        some (str "XYZ9"), str "Cy"⟩ []).public_reply =
      some (build_public_tracking_correction_message (str "XYZ9") (str "Cy")) :=
  ⟨by decide, by decide,
   by rw [(tracking_correction_property
      ⟨9, str "open", 7, [], [str "tracking_sent_" ++ str "abc"], str "email",
        some (str "XYZ9"), str "Cy"⟩ [] (str "abc") (str "XYZ9")
      (by decide) (by decide) (by decide) (by decide) (by decide)).1]⟩

/-- C3: with no guard tag present, a non-empty tracking value `B`, and the
most recent public comment containing `B` verbatim, one evaluation adds the
guard and replacement-sent tags and solves the ticket without posting any
public comment. -/
theorem tracking_retro_tag_property (t : Ticket) (comments : List Comment) (B : Str)
    (hnoguard : ∀ x ∈ t.tags, TRACKING_SENT_PREFIX.isPrefixOf x = false)
    (hf : t.tracking_field = some B) (hB : B.isEmpty = false)
    (hlast : ∃ c, comments.reverse.find? (fun c => c.public) = some c ∧
      isSub B c.body = true) :
    handle_tracking_if_any t comments =
      ⟨none, [TAG_REPLACEMENT_SENT, TRACKING_SENT_PREFIX ++ normalize_tag B],
       [], true, true⟩ := by
  obtain ⟨c, hfind, hsub⟩ := hlast
  have hg : current_sent_tracking_tag t.tags = none :=
    List.find?_eq_none.mpr (fun x hx => by simp [hnoguard x hx])
  have hlast' : last_public_comment_contains_tracking comments B = true := by
    obtain ⟨a, b, hab⟩ := isSub_iff.mp hsub
    have : isSub (normalize_tag B) (normalize_tag c.body) = true := by
      rw [hab, normalize_tag_append, normalize_tag_append]
      exact isSub_of_parts _ _ _
    simp [last_public_comment_contains_tracking, hfind, this]
  exact handle_of_retro_tag hf hB hg hlast'

/-- C3 witness: value `UK99` already present verbatim in the last public
comment of a guard-free ticket. -/
theorem tracking_retro_tag_property_witness :
    (∃ c, ([⟨true, 7, str "your tracking is UK99 ok", []⟩] : List Comment).reverse.find?
        (fun c => c.public) = some c ∧ isSub (str "UK99") c.body = true) ∧
    handle_tracking_if_any
      ⟨7, str "open", 7, [], [], str "email", some (str "UK99"), str "Cy"⟩
      [⟨true, 7, str "your tracking is UK99 ok", []⟩] =
      ⟨none, [TAG_REPLACEMENT_SENT, TRACKING_SENT_PREFIX ++ normalize_tag (str "UK99")],
       [], true, true⟩ :=
  ⟨⟨⟨true, 7, str "your tracking is UK99 ok", []⟩, by decide, by decide⟩,
   tracking_retro_tag_property
     ⟨7, str "open", 7, [], [], str "email", some (str "UK99"), str "Cy"⟩
     [⟨true, 7, str "your tracking is UK99 ok", []⟩] (str "UK99")
     (by decide) (by decide) (by decide)
     ⟨⟨true, 7, str "your tracking is UK99 ok", []⟩, by decide, by decide⟩⟩

/-- C10 (amended): when the guard for the current normalized value is
already in the tag set, an evaluation never posts a public comment; and when
the first guard tag found is a different, stale one, the evaluation resolves
it by tag changes and a status update alone. -/
theorem tracking_guard_present_no_comment (t : Ticket) (comments : List Comment) (B : Str)
    (hf : t.tracking_field = some B) (hB : B.isEmpty = false)
    (hcur : (TRACKING_SENT_PREFIX ++ normalize_tag B) ∈ t.tags) :
    (handle_tracking_if_any t comments).public_reply = none ∧
    (∀ eg, current_sent_tracking_tag t.tags = some eg →
      eg ≠ TRACKING_SENT_PREFIX ++ normalize_tag B →
      handle_tracking_if_any t comments =
        ⟨none, [TAG_REPLACEMENT_SENT, TRACKING_SENT_PREFIX ++ normalize_tag B],
         [eg], true, true⟩) := by
  have hcond : (t.tags.contains (TRACKING_SENT_PREFIX ++ normalize_tag B) ||
      last_public_comment_contains_tracking comments B) = true := by
    have : t.tags.contains (TRACKING_SENT_PREFIX ++ normalize_tag B) = true := by
      simpa [List.elem_iff] using hcur
    rw [this]; rfl
  constructor
  · rcases hg : current_sent_tracking_tag t.tags with _ | eg
    · exact absurd (List.find?_eq_none.mp hg _ hcur) (by simp [pre_of_guard])
    · by_cases heq : eg = TRACKING_SENT_PREFIX ++ normalize_tag B
      · rw [heq] at hg
        rw [handle_of_guard_current hf hB hg]
        rfl
      · rw [handle_of_retro_correction hf hB hg heq hcond]
  · intro eg hg heq
    exact handle_of_retro_correction hf hB hg heq hcond

/-- C10 witness: stale guard first in the tag list, current guard second. -/
theorem tracking_guard_present_no_comment_witness :
    ((TRACKING_SENT_PREFIX ++ normalize_tag (str "b")) ∈
      [str "tracking_sent_a", str "tracking_sent_b"]) ∧
    handle_tracking_if_any
      ⟨11, str "open", 7, [], [str "tracking_sent_a", str "tracking_sent_b"],
        str "email", some (str "b"), str "Cy"⟩ [] =
      ⟨none, [TAG_REPLACEMENT_SENT, TRACKING_SENT_PREFIX ++ normalize_tag (str "b")],
       [str "tracking_sent_a"], true, true⟩ :=
  ⟨by decide,
   (tracking_guard_present_no_comment
      ⟨11, str "open", 7, [], [str "tracking_sent_a", str "tracking_sent_b"],
        str "email", some (str "b"), str "Cy"⟩ [] (str "b")
      (by decide) (by decide) (by decide)).2
     (str "tracking_sent_a") (by decide) (by decide)⟩

/-- C10 counterexample: with the current guard listed first and a stale guard
second, the evaluation is a complete no-op — it posts nothing but also
changes no tags and no status, so the stale guard is not resolved. -/
theorem tracking_stale_guard_counterexample :
    handle_tracking_if_any
      ⟨6, str "open", 7, [], [str "tracking_sent_b", str "tracking_sent_a"],
        str "email", some (str "b"), str "Cy"⟩ [] = noEffects ∧
    (str "tracking_sent_a") ≠
      TRACKING_SENT_PREFIX ++ normalize_tag (str "b") := by
  constructor
  · decide
  · decide

/-! ## Draft gating lemmas (C9) -/

theorem lastIdxAux_cases (p : Comment → Bool) (cs : List Comment) :
    ∀ (i : Nat) (acc : Int),
      lastIdxAux p i acc cs = acc ∨
      ∃ j, ∃ h : j < cs.length, p (cs.get ⟨j, h⟩) = true ∧
        lastIdxAux p i acc cs = (i : Int) + j := by
  induction cs with
  | nil => intro i acc; exact Or.inl rfl
  | cons c rest ih =>
    intro i acc
    rcases ih (i + 1) (if p c then (i : Int) else acc) with h | ⟨j, hj, hpj, heq⟩
    · by_cases hpc : p c = true
      · right
        refine ⟨0, by simp, by simpa using hpc, ?_⟩
        rw [if_pos hpc] at h
        simp [lastIdxAux, hpc, h]
      · left
        rw [if_neg hpc] at h
        simp [lastIdxAux, hpc, h]
    · right
      refine ⟨j + 1, by simpa using hj, by simpa using hpj, ?_⟩
      simp only [lastIdxAux, heq]
      push_cast
      ring

theorem lastIdxWhere_cases (p : Comment → Bool) (cs : List Comment) :
    lastIdxWhere p cs = -1 ∨
    ∃ j, ∃ h : j < cs.length, p (cs.get ⟨j, h⟩) = true ∧
      lastIdxWhere p cs = (j : Int) := by
  rcases lastIdxAux_cases p cs 0 (-1) with h | ⟨j, hj, hpj, heq⟩
  · exact Or.inl h
  · right
    exact ⟨j, hj, hpj, by simpa [lastIdxWhere] using heq⟩

/-- C9: a ticket already carrying the draft-marker tag, with no requester
public comment positioned after the most recent internal note, is skipped by
the draft pass; and as soon as the requester wrote after the last internal
note, the draft-tag skip no longer applies and the gate reduces to the other
conditions. -/
theorem draft_gate_skip_and_reopen :
    (∀ (t : Ticket) (comments : List Comment),
      DRAFT_TAG ∈ t.tags →
      (∀ j (h : j < comments.length),
        ((comments.get ⟨j, h⟩).public &&
          (comments.get ⟨j, h⟩).author_id == t.requester_id) = true →
        (j : Int) ≤ lastIdxWhere (fun c => !c.public) comments) →
      draft_gate t comments = false) ∧
    (∀ (t : Ticket) (comments : List Comment),
      user_wrote_after_last_internal comments t.requester_id = true →
      draft_gate t comments =
        (!(t.status == str "solved" || t.status == str "closed") &&
         !comments.isEmpty && last_is_end_user_public t comments)) := by
  constructor
  · intro t comments htag hafter
    have huw : user_wrote_after_last_internal comments t.requester_id = false := by
      rw [user_wrote_after_last_internal]
      rcases lastIdxWhere_cases
          (fun c => c.public && c.author_id == t.requester_id) comments with
        h | ⟨j, hj, hpj, heq⟩
      · rcases lastIdxWhere_cases (fun c => !c.public) comments with
          h2 | ⟨j2, hj2, _, heq2⟩
        · rw [h, h2]; decide
        · rw [h, heq2]
          simp only [gt_iff_lt, decide_eq_false_iff_not, not_lt]
          omega
      · rw [heq]
        have := hafter j hj hpj
        simp only [gt_iff_lt, decide_eq_false_iff_not, not_lt]
        omega
    have hcontains : t.tags.contains DRAFT_TAG = true := by
      simpa [List.elem_iff] using htag
    simp only [draft_gate, huw, hcontains]
    simp
  · intro t comments huw
    simp [draft_gate, huw]

/-- C9 witness: draft tag present, single internal note, no requester
comment after it → gate closed. -/
theorem draft_gate_skip_and_reopen_witness :
    DRAFT_TAG ∈ [str "chat_suggested_draft"] ∧
    draft_gate
      ⟨20, str "open", 7, [], [str "chat_suggested_draft"], str "email", none, str "Cy"⟩
      [⟨false, 1, str "internal note", []⟩] = false :=
  ⟨by decide,
   draft_gate_skip_and_reopen.1
     ⟨20, str "open", 7, [], [str "chat_suggested_draft"], str "email", none, str "Cy"⟩
     [⟨false, 1, str "internal note", []⟩] (by decide) (by decide)⟩

/-! ## Pure-thanks lemmas (C6, C7) -/

theorem mem_dropWhile_of_mem {p : Char → Bool} {c : Char} (hc : p c = false)
    {l : Str} (h : c ∈ l) : c ∈ l.dropWhile p := by
  induction l with
  | nil => cases h
  | cons x xs ih =>
    by_cases hx : p x = true
    · rw [List.dropWhile_cons_of_pos hx]
      rcases List.mem_cons.mp h with rfl | h'
      · rw [hc] at hx; cases hx
      · exact ih h'
    · rw [List.dropWhile_cons_of_neg hx]
      exact h

theorem mem_pyStrip_of_mem {c : Char} (hc : isWS c = false) {l : Str} (h : c ∈ l) :
    c ∈ pyStrip l := by
  have h1 : c ∈ l.dropWhile isWS := mem_dropWhile_of_mem hc h
  have h2 : c ∈ (l.dropWhile isWS).reverse := List.mem_reverse.mpr h1
  have h3 : c ∈ (l.dropWhile isWS).reverse.dropWhile isWS := mem_dropWhile_of_mem hc h2
  simpa [pyStrip, dropEndWhile] using List.mem_reverse.mpr h3

theorem mem_lowerStr_of_mem {c : Char} (hc : c.toLower = c) {l : Str} (h : c ∈ l) :
    c ∈ lowerStr l :=
  List.mem_map.mpr ⟨c, h, hc⟩

/-- A question mark anywhere in the text forces `is_pure_thanks` to `False`:
every branch of the function other than the final `True` returns `False`,
and the final `True` requires the absence of `?`. -/
theorem is_pure_thanks_false_of_qmark {text : Str} (h : '?' ∈ text) :
    is_pure_thanks text = false := by
  have h2 : '?' ∈ lowerStr (pyStrip text) :=
    mem_lowerStr_of_mem (by decide) (mem_pyStrip_of_mem (by decide) h)
  have hcont : (lowerStr (pyStrip text)).contains '?' = true := by
    simpa [List.elem_iff] using h2
  simp only [is_pure_thanks]
  simp [hcont]
  intro _ _ _ habs
  exact absurd h2 habs

theorem classify_ne_pureThanks_of {t : Ticket} {comments : List Comment}
    (h1 : is_pure_thanks (last_text comments) = false)
    (h2 : is_pure_thanks (thread_text t comments) = false) :
    classify t comments ≠ .pureThanks := by
  intro hcontra
  unfold classify at hcontra
  rw [h1, h2] at hcontra
  simp only [Bool.or_self, Bool.false_eq_true, if_false] at hcontra
  repeat' split at hcontra
  all_goals exact Intent.noConfusion hcontra

theorem getLastD_mem {l : List Comment} (h : l ≠ []) : ∀ d, l.getLastD d ∈ l := by
  induction l with
  | nil => exact absurd rfl h
  | cons x xs ih =>
    intro d
    cases xs with
    | nil => simp
    | cons y ys =>
      rw [List.getLastD_cons]
      exact List.mem_cons_of_mem _ (ih (by simp) x)

theorem mem_joinSep {sep : Str} {l : List Str} {x : Str} (hx : x ∈ l)
    {c : Char} (hc : c ∈ x) : c ∈ joinSep sep l := by
  induction l with
  | nil => cases hx
  | cons a rest ih =>
    cases rest with
    | nil =>
      have : x = a := by simpa using hx
      simpa [joinSep, this.symm] using hc
    | cons b rs =>
      rw [joinSep]
      rcases List.mem_cons.mp hx with rfl | hx'
      · simp [hc]
      · simp [ih hx']

/-- C6 (amended): a last message without a thanks-vocabulary match is never
itself classified as pure thanks; and the composer selects the pure-thanks
branch only through `is_pure_thanks` on the last message or on the whole
thread text, so when both fail the classification is never PureThanks. -/
theorem no_thanks_match_never_pure_thanks :
    (∀ text : Str, reSearch THANKS_RE (lowerStr (pyStrip text)) = false →
      is_pure_thanks text = false) ∧
    (∀ (t : Ticket) (comments : List Comment),
      is_pure_thanks (last_text comments) = false →
      is_pure_thanks (thread_text t comments) = false →
      classify t comments ≠ .pureThanks) := by
  constructor
  · intro text h
    simp [is_pure_thanks, h]
  · intro t comments h1 h2
    exact classify_ne_pureThanks_of h1 h2

/-- C6 witness: `"ok"` has no thanks match and is not pure thanks; a ticket
whose thread is thanks-free everywhere is not classified PureThanks. -/
theorem no_thanks_match_never_pure_thanks_witness :
    (reSearch THANKS_RE (lowerStr (pyStrip (str "ok"))) = false ∧
      is_pure_thanks (str "ok") = false) ∧
    classify ⟨30, str "open", 7, [], [], str "email", none, str "Cy"⟩
      [⟨true, 7, str "ok", []⟩] ≠ .pureThanks :=
  ⟨⟨by decide, no_thanks_match_never_pure_thanks.1 (str "ok") (by decide)⟩,
   no_thanks_match_never_pure_thanks.2
     ⟨30, str "open", 7, [], [], str "email", none, str "Cy"⟩
     [⟨true, 7, str "ok", []⟩] (by decide) (by decide)⟩

/-- C6 counterexample: the last message `"ok"` has no thanks-vocabulary match,
yet the composer still classifies the evaluation as PureThanks because an
earlier comment makes the whole-thread text pass `is_pure_thanks` — the
claim's "regardless of the rest of the thread's content" fails. -/
theorem no_thanks_match_thread_counterexample :
    reSearch THANKS_RE (lowerStr (pyStrip (str "ok"))) = false ∧
    classify ⟨31, str "open", 7, [], [], str "email", none, str "Cy"⟩
      [⟨true, 7, str "thank you so much", []⟩, ⟨true, 7, str "ok", []⟩] =
      .pureThanks := by
  constructor
  · decide
  · decide

/-- C7: a last customer message containing a question mark is never
classified PureThanks — the question mark blocks `is_pure_thanks` both on the
message and on the whole-thread text (which contains the message). -/
theorem question_mark_never_pure_thanks (t : Ticket) (comments : List Comment)
    (hne : comments ≠ [])
    (hq : '?' ∈ (comments.getLastD emptyComment).body) :
    classify t comments ≠ .pureThanks := by
  have h1 : is_pure_thanks (last_text comments) = false :=
    is_pure_thanks_false_of_qmark (mem_pyStrip_of_mem (by decide) hq)
  have h2 : is_pure_thanks (thread_text t comments) = false := by
    apply is_pure_thanks_false_of_qmark
    exact mem_joinSep
      (List.mem_append_left _ (List.mem_map.mpr ⟨_, getLastD_mem hne emptyComment, rfl⟩)) hq
  exact classify_ne_pureThanks_of h1 h2

/-- C7 witness: a thanks message that still asks a question. -/
theorem question_mark_never_pure_thanks_witness :
    ('?' ∈ (([⟨true, 7, str "thanks, but does it fit?", []⟩] :
        List Comment).getLastD emptyComment).body) ∧
    classify ⟨32, str "open", 7, [], [], str "email", none, str "Cy"⟩
      [⟨true, 7, str "thanks, but does it fit?", []⟩] ≠ .pureThanks :=
  ⟨by decide,
   question_mark_never_pure_thanks
     ⟨32, str "open", 7, [], [], str "email", none, str "Cy"⟩
     [⟨true, 7, str "thanks, but does it fit?", []⟩] (by decide) (by decide)⟩

/-! ## Keyword-echo lemmas (C8) -/

theorem pickLoop_spec : ∀ (picks seen out : List Str),
    (∀ x ∈ out, x ∈ seen) → out.Nodup →
    (pickLoop picks seen out).Nodup ∧
      ∀ x ∈ pickLoop picks seen out, x ∈ out ∨ x ∈ picks := by
  intro picks
  induction picks with
  | nil =>
    intro seen out hsub hnd
    exact ⟨hnd, fun x hx => Or.inl hx⟩
  | cons k rest ih =>
    intro seen out hsub hnd
    simp only [pickLoop]
    by_cases hk : k ∈ seen
    · simp only [if_pos hk]
      split
      · exact ⟨hnd, fun x hx => Or.inl hx⟩
      · obtain ⟨h1, h2⟩ := ih seen out hsub hnd
        exact ⟨h1, fun x hx => (h2 x hx).imp id (List.mem_cons_of_mem _)⟩
    · simp only [if_neg hk]
      have hknot : k ∉ out := fun h => hk (hsub k h)
      have hnd2 : (out ++ [k]).Nodup := by
        rw [List.nodup_append]
        exact ⟨hnd, List.nodup_singleton k,
          fun x hx hmem => hknot ((by simpa using hmem : x = k) ▸ hx)⟩
      have hsub2 : ∀ x ∈ out ++ [k], x ∈ seen ++ [k] := by
        intro x hx
        rcases List.mem_append.mp hx with h | h
        · exact List.mem_append_left _ (hsub x h)
        · exact List.mem_append_right _ h
      split
      · refine ⟨hnd2, fun x hx => ?_⟩
        rcases List.mem_append.mp hx with h | h
        · exact Or.inl h
        · exact Or.inr (List.mem_cons.mpr (Or.inl (by simpa using h)))
      · obtain ⟨h1, h2⟩ := ih _ _ hsub2 hnd2
        refine ⟨h1, fun x hx => ?_⟩
        rcases h2 x hx with h | h
        · rcases List.mem_append.mp h with h' | h'
          · exact Or.inl h'
          · exact Or.inr (List.mem_cons.mpr (Or.inl (by simpa using h')))
        · exact Or.inr (List.mem_cons_of_mem _ h)

theorem picks_clean {t : Str} {x : Str} (hx : x ∈ summarize_picks t) :
    cleanKw x = true := by
  have hsize : SIZE_WORDS_BASE.all cleanKw = true := by decide
  have hcolor : SUMMARY_COLORS.all cleanKw = true := by decide
  simp only [summarize_picks, extract_size_keywords_strict, List.mem_append,
    List.append_assoc] at hx
  rcases hx with h | h | h | h | h | h
  · exact List.all_eq_true.mp hsize x (List.mem_of_mem_filter h)
  · by_cases hb : has_mm_token t = true
    · rw [if_pos hb] at h
      have : x = str "MM" := by simpa using h
      rw [this]; decide
    · rw [if_neg hb] at h; cases h
  · exact List.all_eq_true.mp hcolor x (List.mem_of_mem_filter h)
  · by_cases hb : contains_any_word t CHAIN_WORDS = true
    · rw [if_pos hb] at h
      have : x = str "chain" := by simpa using h
      rw [this]; decide
    · rw [if_neg hb] at h; cases h
  · by_cases hb : contains_any_word t LONG_WORDS = true
    · rw [if_pos hb] at h
      have : x = str "longer" := by simpa using h
      rw [this]; decide
    · rw [if_neg hb] at h; cases h
  · by_cases hb : contains_any_word t SHORT_WORDS = true
    · rw [if_pos hb] at h
      have : x = str "shorter" := by simpa using h
      rw [this]; decide
    · rw [if_neg hb] at h; cases h

theorem dropEndWhile_eq_self {w : Str} (hne : w ≠ [])
    (hlast : isWS (w.getLastD ' ') = false) : dropEndWhile isWS w = w := by
  rw [dropEndWhile]
  rcases hr : w.reverse with _ | ⟨c, r⟩
  · exact absurd (by simpa using congrArg List.reverse hr) hne
  · have hc : w.getLastD ' ' = c := by
      have h1 : w.reverse.head? = some c := by rw [hr]; rfl
      rw [List.head?_reverse] at h1
      rw [List.getLastD_eq_getLast?, h1]
      rfl
    rw [List.dropWhile_cons_of_neg (by rw [← hc]; simpa using hlast)]
    rw [← hr, List.reverse_reverse]

theorem pyStrip_eq_self {w : Str} (h : cleanKw w = true) : pyStrip w = w := by
  rcases w with _ | ⟨c, rest⟩
  · cases h
  · simp only [cleanKw, Bool.and_eq_true, Bool.not_eq_true'] at h
    obtain ⟨⟨-, hhead⟩, hlast⟩ := h
    rw [pyStrip, List.dropWhile_cons_of_neg (by simpa using hhead)]
    exact dropEndWhile_eq_self (by simp) hlast

theorem pyStrip_cons_ws {c : Char} (hc : isWS c = true) (s : Str) :
    pyStrip (c :: s) = pyStrip s := by
  rw [pyStrip, pyStrip, List.dropWhile_cons_of_pos hc]

theorem splitChar_cons (sep c : Char) (s : Str) :
    splitChar sep (c :: s) =
      match splitChar sep s with
      | [] => [[]]
      | h :: t => if c = sep then [] :: h :: t else (c :: h) :: t := rfl

theorem splitChar_ne_nil (sep : Char) (s : Str) : splitChar sep s ≠ [] := by
  cases s with
  | nil => simp [splitChar]
  | cons c rest =>
    rw [splitChar_cons]
    rcases splitChar sep rest with _ | ⟨h, t⟩
    · simp
    · by_cases hcs : c = sep <;> simp [hcs]

theorem splitChar_no_sep {sep : Char} {x : Str} (h : sep ∉ x) :
    splitChar sep x = [x] := by
  induction x with
  | nil => rfl
  | cons c cs ih =>
    have hc : c ≠ sep := fun e => h (e ▸ List.mem_cons_self c cs)
    have hcs : sep ∉ cs := fun e => h (List.mem_cons_of_mem _ e)
    rw [splitChar_cons, ih hcs]
    simp [hc]

theorem splitChar_append_sep {sep : Char} {x s : Str} (h : sep ∉ x) :
    splitChar sep (x ++ sep :: s) = x :: splitChar sep s := by
  induction x with
  | nil =>
    rw [List.nil_append, splitChar_cons]
    rcases hs : splitChar sep s with _ | ⟨h1, t1⟩
    · exact absurd hs (splitChar_ne_nil sep s)
    · simp
  | cons c cs ih =>
    have hc : c ≠ sep := fun e => h (e ▸ List.mem_cons_self c cs)
    have hcs : sep ∉ cs := fun e => h (List.mem_cons_of_mem _ e)
    rw [List.cons_append, splitChar_cons, ih hcs]
    simp [hc]

theorem split_join_clean : ∀ (l : List Str), (∀ x ∈ l, cleanKw x = true) →
    ((splitChar ',' (joinSep (str ", ") l)).map pyStrip).filter
      (fun k => !k.isEmpty) = l := by
  intro l
  induction l with
  | nil => intro _; rfl
  | cons x rest ih =>
    intro hclean
    have hx := hclean x (List.mem_cons_self x rest)
    have hxne : x ≠ [] := by cases x <;> simp_all [cleanKw]
    have hxcomma : ',' ∉ x := by
      cases x with
      | nil => simp
      | cons c cs =>
        simp only [cleanKw, Bool.and_eq_true, Bool.not_eq_true'] at hx
        intro hmem
        have := hx.1.1
        rw [← Bool.not_eq_true] at this
        exact this (by simpa [List.elem_iff] using hmem)
    cases rest with
    | nil =>
      rw [joinSep, splitChar_no_sep hxcomma]
      simp [pyStrip_eq_self hx, hxne]
    | cons y ys =>
      have hJ : joinSep (str ", ") (x :: y :: ys) =
          x ++ ',' :: (' ' :: joinSep (str ", ") (y :: ys)) := by
        rw [joinSep]
        simp [str, List.append_assoc]
      rw [hJ, splitChar_append_sep hxcomma]
      rcases hs : splitChar ',' (joinSep (str ", ") (y :: ys)) with _ | ⟨h1, t1⟩
      · exact absurd hs (splitChar_ne_nil _ _)
      · have hsp : splitChar ',' (' ' :: joinSep (str ", ") (y :: ys)) =
            (' ' :: h1) :: t1 := by
          simp only [splitChar, hs]
          simp
        rw [hsp]
        have ihy := ih (fun z hz => hclean z (List.mem_cons_of_mem _ hz))
        rw [hs] at ihy
        simp only [List.map_cons, List.filter_cons] at ihy ⊢
        rw [pyStrip_cons_ws (by decide)]
        simp only [pyStrip_eq_self hx, hxne]
        simpa [hxne] using congrArg (List.cons x) ihy

theorem explicitKws_spec (text : Str) :
    (explicitKws text).length ≤ 2 ∧ (explicitKws text).Nodup := by
  obtain ⟨hnd, hmem⟩ :=
    pickLoop_spec (summarize_picks (lowerStr text)) [] [] (by simp) List.nodup_nil
  have hclean : ∀ x ∈ pickLoop (summarize_picks (lowerStr text)) [] [],
      cleanKw x = true := by
    intro x hx
    rcases hmem x hx with h | h
    · cases h
    · exact picks_clean h
  have hround := split_join_clean _ hclean
  rw [explicitKws, summarize_keywords]
  rw [hround]
  split
  · constructor
    · simp
    · exact hnd.sublist (List.take_sublist _ _)
  · rename_i hlen
    exact ⟨by omega, hnd⟩

set_option maxHeartbeats 2000000 in
/-- A classification as explicit replacement always carries the keyword list
computed by `explicitKws` on the stripped last message. -/
theorem classify_explicit_inv {t : Ticket} {comments : List Comment} {kws : List Str}
    (h : classify t comments = .explicitReplacement kws) :
    kws = explicitKws (last_text comments) := by
  unfold classify at h
  repeat' split at h
  all_goals first
    | exact Intent.noConfusion h
    | (injection h with h2; exact h2.symm)

/-- C8 (amended): every explicit-replacement classification echoes at most
two keywords, without duplicates — but in the summary's fixed vocabulary
order, not in text encounter order. -/
theorem explicit_echo_capped (t : Ticket) (comments : List Comment) (kws : List Str)
    (h : classify t comments = .explicitReplacement kws) :
    kws.length ≤ 2 ∧ kws.Nodup := by
  rw [classify_explicit_inv h]
  exact explicitKws_spec _

/-- C8 witness: an explicit request matching two color words. -/
theorem explicit_echo_capped_witness :
    classify ⟨40, str "open", 7, [], [], str "email", none, str "Cy"⟩
        [⟨true, 7, str "please send navy black", []⟩] =
      .explicitReplacement [str "black", str "navy"] ∧
    ([str "black", str "navy"].length ≤ 2 ∧ [str "black", str "navy"].Nodup) :=
  ⟨by decide,
   explicit_echo_capped ⟨40, str "open", 7, [], [], str "email", none, str "Cy"⟩
     [⟨true, 7, str "please send navy black", []⟩] [str "black", str "navy"]
     (by decide)⟩

/-- C8 counterexample: in `"please send navy black"` the word `navy` is
encountered before `black` (positions 12 and 17), yet the echoed keyword list
is `[black, navy]` — the echo follows the summary's fixed vocabulary order,
not encounter order. -/
theorem explicit_echo_order_counterexample :
    classify ⟨41, str "open", 7, [], [], str "email", none, str "Cy"⟩
        [⟨true, 7, str "please send navy black", []⟩] =
      .explicitReplacement [str "black", str "navy"] ∧
    subPos (str "navy") (str "please send navy black") = some 12 ∧
    subPos (str "black") (str "please send navy black") = some 17 := by
  refine ⟨by decide, by decide, by decide⟩

/-! ## Chain-length scenario (C4) -/

/-- C4 counterexample: on `"please send a longer chain, mine is too short"`
the chain detector returns the `longer` length case — the `LONG_WORDS` check
precedes the `SHORT_WORDS` check and `longer` matches as a whole word — so
the classification is not `ChainLengthCase{shorter}` as claimed. -/
theorem chain_longer_counterexample :
    detect_chain_case (str "please send a longer chain, mine is too short") =
      some (.length (str "longer")) ∧
    some (ChainCase.length (str "longer")) ≠ some (ChainCase.length (str "shorter")) := by
  refine ⟨by decide, by decide⟩

/-- C4 (amended): the scenario message is classified as
`ChainLengthCase{longer}`, and the composed draft contains the
"longer chain" phrasing and the fixed no-return sentence. -/
theorem chain_longer_classified :
    classify ⟨50, str "open", 7, [], [], str "email", none, str "Ann"⟩
        [⟨true, 7, str "please send a longer chain, mine is too short", []⟩] =
      .chainCase (.length (str "longer")) ∧
    isSub (str "longer chain")
      (compose_draft ⟨50, str "open", 7, [], [], str "email", none, str "Ann"⟩
        [⟨true, 7, str "please send a longer chain, mine is too short", []⟩]) = true ∧
    isSub NO_RETURN_SENTENCE
      (compose_draft ⟨50, str "open", 7, [], [], str "email", none, str "Ann"⟩
        [⟨true, 7, str "please send a longer chain, mine is too short", []⟩]) = true := by
  refine ⟨by decide, by decide, by decide⟩

/-! ## No-return-sentence distribution (C5) -/

theorem isSub_self (n : Str) : isSub n n = true :=
  isSub_iff.mpr ⟨[], [], by simp⟩

theorem isSub_append_left {n a : Str} (h : isSub n a = true) (b : Str) :
    isSub n (a ++ b) = true := by
  obtain ⟨x, y, rfl⟩ := isSub_iff.mp h
  exact isSub_iff.mpr ⟨x, y ++ b, by simp⟩

theorem isSub_append_right {n b : Str} (h : isSub n b = true) (a : Str) :
    isSub n (a ++ b) = true := by
  obtain ⟨x, y, rfl⟩ := isSub_iff.mp h
  exact isSub_iff.mpr ⟨a ++ x, y, by simp⟩

theorem no_return_in_need_info_amazon (fn : Str) (nml op pp : Bool) :
    isSub NO_RETURN_SENTENCE (build_need_info_amazon fn nml op pp) = true := by
  simp only [build_need_info_amazon]
  repeat' first
    | exact isSub_append_right (isSub_self _) _
    | apply isSub_append_left

theorem no_return_in_need_info_shopify (fn : Str) (nml op pp : Bool) :
    isSub NO_RETURN_SENTENCE (build_need_info_shopify fn nml op pp) = true := by
  simp only [build_need_info_shopify]
  repeat' first
    | exact isSub_append_right (isSub_self _) _
    | apply isSub_append_left

theorem no_return_in_chain_reply (case : ChainCase) (fn : Str) :
    isSub NO_RETURN_SENTENCE (build_chain_reply case fn) = true := by
  cases case <;>
    · simp only [build_chain_reply]
      repeat' first
        | exact isSub_append_right (isSub_self _) _
        | apply isSub_append_left

theorem no_return_in_accept_replacement (fn echo : Str) :
    isSub NO_RETURN_SENTENCE (build_accept_replacement fn echo) = true := by
  simp only [build_accept_replacement]
  repeat' first
    | exact isSub_append_right (isSub_self _) _
    | apply isSub_append_left

/-- C5 (amended): the no-return sentence appears in every chain-case draft,
every explicit-request draft (universally when no return question is
present, and at a concrete evaluation with one), and — contrary to the claim
— also in every Amazon and Shopify info-request draft; only the
generic-email info-request draft omits it. -/
theorem no_return_sentence_distribution :
    (∀ (t : Ticket) (comments : List Comment),
      classify t comments = .needInfoAmazon →
      isSub NO_RETURN_SENTENCE (compose_draft t comments) = true) ∧
    (∀ (t : Ticket) (comments : List Comment),
      classify t comments = .needInfoShopify →
      isSub NO_RETURN_SENTENCE (compose_draft t comments) = true) ∧
    (∀ (t : Ticket) (comments : List Comment) (c : ChainCase),
      classify t comments = .chainCase c →
      isSub NO_RETURN_SENTENCE (compose_draft t comments) = true) ∧
    (∀ (t : Ticket) (comments : List Comment) (kws : List Str),
      classify t comments = .explicitReplacement kws →
      reSearch RETURN_REQUEST_RE (lowerStr (last_text comments)) = false →
      isSub NO_RETURN_SENTENCE (compose_draft t comments) = true) ∧
    (classify ⟨51, str "open", 7, [], [], str "email", none, str "Bo"⟩
        [⟨true, 7, str "please send black, do i need to return it", []⟩] =
        .explicitReplacement [str "black"] ∧
      isSub NO_RETURN_SENTENCE
        (compose_draft ⟨51, str "open", 7, [], [], str "email", none, str "Bo"⟩
          [⟨true, 7, str "please send black, do i need to return it", []⟩]) = true) ∧
    (classify ⟨52, str "open", 7, [], [str "x"], str "email", none, str "Bo"⟩
        [⟨true, 7, str "hi", []⟩] = .needInfoGeneric ∧
      isSub NO_RETURN_SENTENCE
        (compose_draft ⟨52, str "open", 7, [], [str "x"], str "email", none, str "Bo"⟩
          [⟨true, 7, str "hi", []⟩]) = false) := by
  refine ⟨?_, ?_, ?_, ?_, ⟨by decide, by decide⟩, ⟨by decide, by decide⟩⟩
  · intro t comments h
    simp only [compose_draft, h]
    exact isSub_append_right (no_return_in_need_info_amazon _ _ _ _) _
  · intro t comments h
    simp only [compose_draft, h]
    exact isSub_append_right (no_return_in_need_info_shopify _ _ _ _) _
  · intro t comments c h
    simp only [compose_draft, h]
    exact isSub_append_right (no_return_in_chain_reply _ _) _
  · intro t comments kws h hret
    simp only [compose_draft, h, hret]
    simp only [Bool.false_eq_true, if_false]
    exact isSub_append_right (no_return_in_accept_replacement _ _) _

/-- C5 witness: a concrete Amazon info-request evaluation run through the
first conjunct. -/
theorem no_return_sentence_distribution_witness :
    classify ⟨53, str "open", 7, str "free replacement for my amazon purchase",
        [], str "email", none, str "Bo"⟩ [⟨true, 7, str "hi", []⟩] =
      .needInfoAmazon ∧
    isSub NO_RETURN_SENTENCE
      (compose_draft ⟨53, str "open", 7, str "free replacement for my amazon purchase",
        [], str "email", none, str "Bo"⟩ [⟨true, 7, str "hi", []⟩]) = true :=
  ⟨by decide,
   no_return_sentence_distribution.1
     ⟨53, str "open", 7, str "free replacement for my amazon purchase",
       [], str "email", none, str "Bo"⟩ [⟨true, 7, str "hi", []⟩] (by decide)⟩

/-- C5 counterexample: a NeedMoreInfo (Amazon) evaluation whose draft does
contain the no-return sentence, refuting "omitted from info-requests". -/
theorem no_return_in_info_request_counterexample :
    classify ⟨54, str "open", 7, str "free replacement for my amazon purchase",
        [], str "email", none, str "Bo"⟩ [⟨true, 7, str "hello", []⟩] =
      .needInfoAmazon ∧
    isSub NO_RETURN_SENTENCE
      (compose_draft ⟨54, str "open", 7, str "free replacement for my amazon purchase",
        [], str "email", none, str "Bo"⟩ [⟨true, 7, str "hello", []⟩]) = true := by
  refine ⟨by decide, by decide⟩

end Bot
